import Mathlib

/-!
# Command admission core of `pika_client_conn.cc`

A shallow embedding of `PikaClientConn` (file `src/pika_client_conn.cc`): the
authentication state machine `AuthStat`, the wire-form reconstruction
`RestoreArgs`, and the admission / execution pipeline `DoCmd`.

Conventions of the embedding.

* A `std::string` is a Lean `String` read one `Char` per byte, so that
  `String.length` is `std::string::size`.
* Everything `DoCmd` reaches through `g_pika_server`, `g_pika_conf` and the
  command handler objects (data store, handler members, configuration values,
  monitor registry, clock) is one value of an arbitrary type `W`, the *world*.
  Handlers are arbitrary functions on the world; configuration getters are
  arbitrary observations of it.
* The connection (`argv_`, `auth_stat_`, `ip_port`) and the binlog sink
  (`logger_`) are kept outside the world: a handler has no access to them other
  than through the argument list handed to `Initial`.
* Calls on collaborators (locks, logger, monitor thread, glog) are recorded in
  order as a list of `Event`s, the *trace* of the call.
-/

namespace Pika

/-! ## Data model -/

/-- Severity of a glog line, as far as this file uses them. -/
inductive Severity where
  | WARNING
  | ERROR
  deriving DecidableEq, Repr

/-- Calls made by the connection code on its collaborators, in program order. -/
inductive Event where
  /-- Line written by `LOG(severity) << ...`. -/
  | LOG (severity : Severity) (text : String)
  /-- Call `g_pika_server->monitor_thread()->AddMonitorMessage(monitor_message)`. -/
  | AddMonitorMessage (monitor_message : String)
  /-- Call `c_ptr->Initial(argv_, cinfo_ptr)`. -/
  | Initial
  /-- Call `g_pika_server->mutex_record_.Lock(key)`. -/
  | mutex_record_Lock (key : String)
  /-- Call `pthread_rwlock_rdlock(g_pika_server->rwlock())`. -/
  | rwlock_rdlock
  /-- Call `c_ptr->Do()`. -/
  | Do
  /-- Call `g_pika_server->logger_->Lock()`. -/
  | logger_Lock
  /-- Call `g_pika_server->logger_->Put(raw_args)`. -/
  | logger_Put (raw_args : String)
  /-- Call `g_pika_server->logger_->Unlock()`. -/
  | logger_Unlock
  /-- Call `pthread_rwlock_unlock(g_pika_server->rwlock())`. -/
  | rwlock_unlock
  /-- Call `g_pika_server->mutex_record_.Unlock(key)`. -/
  | mutex_record_Unlock (key : String)
  deriving DecidableEq, Repr

/-- The event acquires one of the three locks (key lock, suspend lock in read
mode, log gate). -/
def Event.isLockAcquire : Event → Bool
  | .mutex_record_Lock _ => true
  | .rwlock_rdlock => true
  | .logger_Lock => true
  | _ => false

/-- The event is a glog line. -/
def Event.isLOG : Event → Bool
  | .LOG _ _ => true
  | _ => false

/-- The records handed to `logger_->Put` in a trace, in order. -/
def puts (trace : List Event) : List String :=
  trace.filterMap fun e =>
    match e with
    | .logger_Put raw_args => some raw_args
    | _ => none

/-- Authentication status `stat_` of a connection. The enumeration `StatType`
is declared in the header `pika_client_conn.h`, which is not among the sources;
its three enumerators are the first three constructors, and `invalid raw`
stands for a stored value `raw` that is none of them (the `default:` branch of
`IsAuthed`). -/
inductive StatType where
  | kNoAuthed
  | kAdminAuthed
  | kLimitAuthed
  | invalid (raw : Nat)
  deriving DecidableEq, Repr

/-- Command descriptor `CmdInfo`, through the getters the connection code calls:
`name()`, `is_write()`, `is_admin_require()`, `is_local()`, `is_suspend()`. -/
structure CmdInfo where
  name : String
  is_write : Bool
  is_admin_require : Bool
  is_local : Bool
  is_suspend : Bool
  deriving DecidableEq, Repr

/-- Handler result `CmdRes`, through the getters the connection code calls:
`ok()`, `message()`, `raw_message()`. -/
structure CmdRes where
  ok : Bool
  message : String
  raw_message : String
  deriving DecidableEq, Repr

/-- Command handler `Cmd`. `Initial` receives `argv_` by reference, so it
yields the argument list it leaves behind together with the new world; `Do`
takes no argument and acts on the world only; `res` reads the handler's
current result. -/
structure Cmd (W : Type) where
  Initial : List String → CmdInfo → W → List String × W
  Do : W → W
  res : W → CmdRes

/-- What the connection code reads from outside itself: the command-name
constants, the two command tables (`GetCmdInfo`, `self_thread_->GetCmd`), the
getters of `g_pika_conf` and `g_pika_server`, the clock `slash::NowMicros`, and
the two text helpers used for the monitor line (`slash::ToRead`, and
`std::to_string` of the floating-point seconds, taken as a function of the
microsecond reading). None of them is defined in the sources, so all are
parameters. -/
structure Globals (W : Type) where
  kCmdNameAuth : String
  kCmdNameMonitor : String
  GetCmdInfo : String → Option CmdInfo
  GetCmd : String → Option (Cmd W)
  userpass : W → String
  requirepass : W → String
  vuser_blacklist : W → List String
  readonly : W → Bool
  slowlog_slower_than : W → Int
  host : W → String
  HasMonitorClients : W → Bool
  NowMicros : W → Nat
  ToRead : String → String
  to_string_seconds : Nat → String

/-- Fields of `PikaClientConn` used by `DoCmd`: the peer identity `ip_port()`,
the bytes of the object's own address (what `DoCmd` pushes for the monitor
command), the argument list `argv_` and the authentication status
`auth_stat_.stat_`. -/
structure PikaClientConn where
  ip_port : String
  self_bytes : String
  argv_ : List String
  auth_stat_ : StatType
  deriving DecidableEq, Repr

/-- State a call of `DoCmd` acts on: the connection, the world, and the records
held by the binlog sink `g_pika_server->logger_` in append order. -/
structure State (W : Type) where
  conn : PikaClientConn
  world : W
  logger_ : List String

/-- Result of a call of `DoCmd`: the returned reply string, the state it leaves
and the trace of collaborator calls it made. -/
structure Outcome (W : Type) where
  reply : String
  st : State W
  trace : List Event

/-! ## Strings -/

/-- Search of `std::string::find` on character lists: the first position at
which `pat` occurs in the text, `none` for `npos`. -/
def find_chars (pat : List Char) : List Char → Option Nat
  | [] => if pat.isEmpty then some 0 else none
  | c :: cs =>
    if pat.isPrefixOf (c :: cs) then some 0
    else (find_chars pat cs).map (· + 1)

/-- Call `s.find(pat)` of `std::string`; `none` is `std::string::npos`. -/
def string_find (s pat : String) : Option Nat :=
  find_chars pat.data s.data

/-- Modelled from the spec: `RedisAppendLen` is declared outside the sources;
the spec gives the framing as `*<n>\r\n` and `$<len>\r\n`, a marker followed
by the decimal count and CRLF, appended to the string. -/
def RedisAppendLen (str : String) (ori : Nat) (pfx : String) : String :=
  str ++ pfx ++ toString ori ++ "\r\n"

/-- Modelled from the spec: `RedisAppendContent` is declared outside the
sources; the spec gives the framing as `<bytes>\r\n`, the bytes followed by
CRLF, appended to the string. -/
def RedisAppendContent (str : String) (value : String) : String :=
  str ++ value ++ "\r\n"

/-- Method `PikaClientConn::RestoreArgs` (lines 27-37), as a function of
`argv_`. -/
def RestoreArgs (argv_ : List String) : String :=
  argv_.foldl
    (fun res it => RedisAppendContent (RedisAppendLen res it.length "$") it)
    (RedisAppendLen "" argv_.length "*")

/-! ## Authentication state machine -/

/-- Method `AuthStat::Init` (lines 162-170), as a function of the two
configured passwords. -/
def AuthStat.Init (userpass requirepass : String) : StatType :=
  let stat_ := if userpass = "" then StatType.kLimitAuthed else StatType.kNoAuthed
  if stat_ = StatType.kLimitAuthed ∧ requirepass = "" then StatType.kAdminAuthed
  else stat_

/-- Method `AuthStat::IsAuthed` (lines 173-195): the returned flag and the glog
lines written. -/
def AuthStat.IsAuthed (kCmdNameAuth : String) (blacklist : List String)
    (stat_ : StatType) (cinfo : CmdInfo) : Bool × List Event :=
  let opt := cinfo.name
  if opt = kCmdNameAuth then (true, [])
  else
    match stat_ with
    | .kNoAuthed => (false, [])
    | .kAdminAuthed => (true, [])
    | .kLimitAuthed =>
      if cinfo.is_admin_require = true ∨ opt ∈ blacklist then (false, [])
      else (true, [])
    | .invalid raw =>
      (false, [Event.LOG Severity.WARNING ("Invalid auth stat : " ++ toString raw)])

/-- Method `AuthStat::ChecknUpdate` (lines 198-208): the returned flag and the
status it leaves. -/
def AuthStat.ChecknUpdate (stat_ : StatType) (message : String) : Bool × StatType :=
  if message = "USER" then (true, StatType.kLimitAuthed)
  else if message = "ROOT" then (true, StatType.kAdminAuthed)
  else (false, stat_)

/-! ## Command admission and execution -/

/-- Conversion of a `uint64_t` value to `int64_t` (two's complement), as in
`int64_t duration = slash::NowMicros() - start_us`. -/
def to_int64 (n : Nat) : Int :=
  if n % 2 ^ 64 < 2 ^ 63 then (n % 2 ^ 64 : Nat) else ((n % 2 ^ 64 : Nat) : Int) - 2 ^ 64

/-- Monitor line built at lines 70-73: the time stamp, the peer in brackets,
then every argument in readable form, each preceded by a blank. -/
def monitor_message {W : Type} (g : Globals W) (w : W) (conn : PikaClientConn) : String :=
  conn.argv_.foldl (fun m iter => m ++ (" " ++ g.ToRead iter))
    (g.to_string_seconds (g.NowMicros w % 2 ^ 64) ++ " [" ++ conn.ip_port ++ "]")

/-- Argument list handed to `Initial` (lines 77-80): for the monitor command
the bytes of the connection's own address are pushed onto `argv_` first. -/
def argv_for_Initial {W : Type} (g : Globals W) (conn : PikaClientConn) (opt : String) :
    List String :=
  if opt = g.kCmdNameMonitor then conn.argv_ ++ [conn.self_bytes] else conn.argv_

/-- Slow-command report of lines 123-128, read at the world `w` the handler
left: the glog line written, if any. -/
def slowlog {W : Type} (g : Globals W) (w : W) (opt : String) (start_us : Nat) : List Event :=
  if 0 ≤ g.slowlog_slower_than w then
    let duration := to_int64 ((g.NowMicros w % 2 ^ 64 + 2 ^ 64 - start_us) % 2 ^ 64)
    if duration > g.slowlog_slower_than w then
      [Event.LOG Severity.ERROR
        ("command:" ++ opt ++ ", start_time(s): " ++ toString (start_us / 1000000)
          ++ ", duration(us): " ++ toString duration)]
    else []
  else []

/-- Method `PikaClientConn::DoCmd` (lines 39-136). -/
def DoCmd {W : Type} (g : Globals W) (s : State W) (opt : String) : Outcome W :=
  -- Get command info
  match g.GetCmdInfo opt, g.GetCmd opt with
  | some cinfo, some c =>
    -- Check authed
    let authed := AuthStat.IsAuthed g.kCmdNameAuth (g.vuser_blacklist s.world)
      s.conn.auth_stat_ cinfo
    if authed.1 = false then
      { reply := "-ERR NOAUTH Authentication required.\r\n"
        st := s
        trace := authed.2 ++
          [Event.LOG Severity.WARNING ("(" ++ s.conn.ip_port ++ ")Authentication required")] }
    else
      let start_us : Nat :=
        if 0 ≤ g.slowlog_slower_than s.world then g.NowMicros s.world % 2 ^ 64 else 0
      -- For now, only shutdown need check local
      if cinfo.is_local = true ∧ string_find s.conn.ip_port "127.0.0.1" = none
          ∧ string_find s.conn.ip_port (g.host s.world) = none then
        { reply := "-ERR 'shutdown' should be localhost\r\n"
          st := s
          trace := authed.2 ++
            [Event.LOG Severity.WARNING "'shutdown' should be localhost"] }
      else
        let t_monitor : List Event :=
          if g.HasMonitorClients s.world = true then
            [Event.AddMonitorMessage (monitor_message g s.world s.conn)]
          else []
        let argv1 := argv_for_Initial g s.conn opt
        -- Initial
        let i := c.Initial argv1 cinfo s.world
        let argv2 := i.1
        let w1 := i.2
        let t_initial := authed.2 ++ t_monitor ++ [Event.Initial]
        if (c.res w1).ok = false then
          { reply := (c.res w1).message
            st := { conn := { s.conn with argv_ := argv2 }, world := w1, logger_ := s.logger_ }
            trace := t_initial }
        else if cinfo.is_write = true ∧ g.readonly w1 = true then
          { reply := "-ERR Server in read-only\r\n"
            st := { conn := { s.conn with argv_ := argv2 }, world := w1, logger_ := s.logger_ }
            trace := t_initial }
        else
          let raw_args : String := if cinfo.is_write = true then RestoreArgs argv2 else ""
          let t_key : List Event :=
            if cinfo.is_write = true ∧ 2 ≤ argv2.length then
              [Event.mutex_record_Lock (argv2.getD 1 "")]
            else []
          -- Add read lock for no suspend command
          let t_rdlock : List Event :=
            if cinfo.is_suspend = false then [Event.rwlock_rdlock] else []
          let w2 := c.Do w1
          let logged : Bool := cinfo.is_write && (c.res w2).ok
          let t_logger : List Event :=
            if logged = true then
              [Event.logger_Lock, Event.logger_Put raw_args, Event.logger_Unlock]
            else []
          let t_unlock : List Event :=
            if cinfo.is_suspend = false then [Event.rwlock_unlock] else []
          let t_unkey : List Event :=
            if cinfo.is_write = true ∧ 2 ≤ argv2.length then
              [Event.mutex_record_Unlock (argv2.getD 1 "")]
            else []
          let t_slow := slowlog g w2 opt start_us
          let upd : Bool × StatType :=
            if opt = g.kCmdNameAuth then
              AuthStat.ChecknUpdate s.conn.auth_stat_ (c.res w2).raw_message
            else (true, s.conn.auth_stat_)
          let t_auth : List Event :=
            if upd.1 = false then
              [Event.LOG Severity.WARNING ("(" ++ s.conn.ip_port ++ ")Wrong Password")]
            else []
          { reply := (c.res w2).message
            st :=
              { conn := { s.conn with argv_ := argv2, auth_stat_ := upd.2 }
                world := w2
                logger_ := if logged = true then s.logger_ ++ [raw_args] else s.logger_ }
            trace := t_initial ++ t_key ++ t_rdlock ++ [Event.Do] ++ t_logger
              ++ t_unlock ++ t_unkey ++ t_slow ++ t_auth }
  | _, _ =>
    { reply := "-Err unknown or unsupported command '" ++ opt ++ "'\r\n"
      st := s
      trace := [] }

/-- Commands run one after another on one connection: each entry is the name
`DoCmd` is called with and the argument list the connection holds for it. -/
def DoCmds {W : Type} (g : Globals W) : State W → List (String × List String) → State W
  | s, [] => s
  | s, (opt, argv) :: rest =>
    DoCmds g (DoCmd g { s with conn := { s.conn with argv_ := argv } } opt).st rest

/-! ## Paths of `DoCmd` -/

/-- The `return` statements of `DoCmd` that precede the locking code (lines 44,
50, 63, 84 and 90). -/
inductive EarlyReturn where
  | unknownCommand
  | authRequired
  | localOnlyViolation
  | initialFailure
  | readOnlyServer
  deriving DecidableEq, Repr

/-- The early return a call of `DoCmd` takes, read off the conditions of lines
43, 48, 59-61, 83 and 88-89 in program order; `none` when the call gets past all
of them. -/
def earlyReturn {W : Type} (g : Globals W) (s : State W) (opt : String) :
    Option EarlyReturn :=
  match g.GetCmdInfo opt, g.GetCmd opt with
  | some cinfo, some c =>
    if (AuthStat.IsAuthed g.kCmdNameAuth (g.vuser_blacklist s.world)
        s.conn.auth_stat_ cinfo).1 = false then
      some EarlyReturn.authRequired
    else if cinfo.is_local = true ∧ string_find s.conn.ip_port "127.0.0.1" = none
        ∧ string_find s.conn.ip_port (g.host s.world) = none then
      some EarlyReturn.localOnlyViolation
    else
      let w1 := (c.Initial (argv_for_Initial g s.conn opt) cinfo s.world).2
      if (c.res w1).ok = false then some EarlyReturn.initialFailure
      else if cinfo.is_write = true ∧ g.readonly w1 = true then
        some EarlyReturn.readOnlyServer
      else none
  | _, _ => some EarlyReturn.unknownCommand

/-- The record a call of `DoCmd` owes the log, in the words of the claim on the
write-ahead log: the command is known, its descriptor is a write, it is
authorized, the local check passes, `Initial` reports ok, the server is not
read-only and the handler reports ok after `Do`; the record is then
`RestoreArgs` of the argument list as it stands before `Do`. Otherwise there
is none. -/
def successfulWriteRecord {W : Type} (g : Globals W) (s : State W) (opt : String) :
    Option String :=
  match g.GetCmdInfo opt, g.GetCmd opt with
  | some cinfo, some c =>
    let i := c.Initial (argv_for_Initial g s.conn opt) cinfo s.world
    if cinfo.is_write = true
        ∧ (AuthStat.IsAuthed g.kCmdNameAuth (g.vuser_blacklist s.world)
            s.conn.auth_stat_ cinfo).1 = true
        ∧ ¬ (cinfo.is_local = true ∧ string_find s.conn.ip_port "127.0.0.1" = none
            ∧ string_find s.conn.ip_port (g.host s.world) = none)
        ∧ (c.res i.2).ok = true
        ∧ g.readonly i.2 = false
        ∧ (c.res (c.Do i.2)).ok = true then
      some (RestoreArgs i.1)
    else none
  | _, _ => none

/-- The records owed by a sequence of commands run one after another, each
judged in the state the commands before it left. -/
def successfulWriteRecords {W : Type} (g : Globals W) :
    State W → List (String × List String) → List String
  | _, [] => []
  | s, (opt, argv) :: rest =>
    (successfulWriteRecord g { s with conn := { s.conn with argv_ := argv } } opt).toList
      ++ successfulWriteRecords g
          (DoCmd g { s with conn := { s.conn with argv_ := argv } } opt).st rest

/-! ## Concrete configuration used to evaluate the model -/

/-- Result of a handler that succeeded with the reply `+OK`. -/
def okRes : CmdRes := { ok := true, message := "+OK\r\n", raw_message := "OK" }

/-- Descriptor of a read command that needs no privilege. -/
def getInfo : CmdInfo :=
  { name := "get", is_write := false, is_admin_require := false, is_local := false,
    is_suspend := false }

/-- Descriptor of an administrator-only command. -/
def slaveofInfo : CmdInfo :=
  { name := "slaveof", is_write := false, is_admin_require := true, is_local := false,
    is_suspend := false }

/-- World of the example server: the result of the handler that ran last, the
arguments it kept at `Initial`, and the key-value store. -/
structure DemoWorld where
  res : CmdRes
  args : List String
  kv : List (String × String)
  deriving DecidableEq, Repr

/-- Handler of the example server that accepts exactly `arity` arguments at
`Initial`, keeps them, and runs `run` at `Do`. -/
def demoCmd (arity : Nat) (run : DemoWorld → DemoWorld) : Cmd DemoWorld :=
  { Initial := fun argv _ w =>
      (argv,
        if argv.length = arity then
          { w with res := { ok := true, message := "", raw_message := "" }, args := argv }
        else
          { w with res := { ok := false, message := "-ERR wrong number of arguments\r\n",
                            raw_message := "wrong number of arguments" } })
    Do := run
    res := fun w => w.res }

/-- Descriptor of the write command `set`. -/
def setInfo : CmdInfo :=
  { name := "set", is_write := true, is_admin_require := false, is_local := false,
    is_suspend := false }

/-- Descriptor of the command `auth`. -/
def authInfo : CmdInfo :=
  { name := "auth", is_write := false, is_admin_require := false, is_local := false,
    is_suspend := false }

/-- Descriptor of the local-only command `shutdown`. -/
def shutdownInfo : CmdInfo :=
  { name := "shutdown", is_write := false, is_admin_require := true, is_local := true,
    is_suspend := false }

/-- Handler of `set key value`: stores the pair and reports ok. -/
def setCmd : Cmd DemoWorld :=
  demoCmd 3 fun w =>
    { w with kv := (w.args.getD 1 "", w.args.getD 2 "") :: w.kv, res := okRes }

/-- Handler of `get key`: reports ok when the key is stored, a failure
otherwise. -/
def getCmd : Cmd DemoWorld :=
  demoCmd 2 fun w =>
    if (w.kv.map Prod.fst).contains (w.args.getD 1 "") then { w with res := okRes }
    else { w with res := { ok := false, message := "$-1\r\n", raw_message := "" } }

/-- Handler of `auth password`: its raw message is `ROOT` for the admin
password, `USER` for the restricted-user password, and a failure otherwise. -/
def authCmd : Cmd DemoWorld :=
  demoCmd 2 fun w =>
    if w.args.getD 1 "" = "adminpw" then
      { w with res := { ok := true, message := "+OK\r\n", raw_message := "ROOT" } }
    else if w.args.getD 1 "" = "userpw" then
      { w with res := { ok := true, message := "+OK\r\n", raw_message := "USER" } }
    else
      { w with res := { ok := false, message := "-ERR invalid password\r\n",
                        raw_message := "invalid password" } }

/-- Handler of `shutdown`: reports ok. -/
def shutdownCmd : Cmd DemoWorld :=
  demoCmd 1 fun w => { w with res := okRes }

/-- Example server: commands `set`, `get`, `auth` and `shutdown`, passwords
`userpw` and `adminpw`, with the read-only flag and the advertised host as
given. -/
def demoGlobals (readonly : Bool) (host : String) : Globals DemoWorld :=
  { kCmdNameAuth := "auth"
    kCmdNameMonitor := "monitor"
    GetCmdInfo := fun opt =>
      if opt = "set" then some setInfo
      else if opt = "get" then some getInfo
      else if opt = "auth" then some authInfo
      else if opt = "shutdown" then some shutdownInfo
      else none
    GetCmd := fun opt =>
      if opt = "set" then some setCmd
      else if opt = "get" then some getCmd
      else if opt = "auth" then some authCmd
      else if opt = "shutdown" then some shutdownCmd
      else none
    userpass := fun _ => "userpw"
    requirepass := fun _ => "adminpw"
    vuser_blacklist := fun _ => ["flushall"]
    readonly := fun _ => readonly
    slowlog_slower_than := fun _ => 10000
    host := fun _ => host
    HasMonitorClients := fun _ => false
    NowMicros := fun _ => 0
    ToRead := fun a => a
    to_string_seconds := fun us => toString us }

/-- State of the example server: a connection from `ip_port` in the status
`stat_` holding the arguments `argv`, an empty store and an empty log. -/
def demoState (ip_port : String) (stat_ : StatType) (argv : List String) : State DemoWorld :=
  { conn := { ip_port := ip_port, self_bytes := "", argv_ := argv, auth_stat_ := stat_ }
    world := { res := { ok := true, message := "", raw_message := "" }, args := [], kv := [] }
    logger_ := [] }

/-! ## Lock discipline -/

/-- The three locks `DoCmd` takes: the entry of `mutex_record_` for a key, the
suspend lock `rwlock()` held in read mode, and the mutex of `logger_`. -/
inductive Lock where
  | key (k : String)
  | suspend
  | logGate
  deriving DecidableEq, Repr

/-- The lock an event acquires, if it is an acquisition. -/
def Event.acquires : Event → Option Lock
  | .mutex_record_Lock k => some (Lock.key k)
  | .rwlock_rdlock => some Lock.suspend
  | .logger_Lock => some Lock.logGate
  | _ => none

/-- The lock an event releases, if it is a release. -/
def Event.releases : Event → Option Lock
  | .mutex_record_Unlock k => some (Lock.key k)
  | .rwlock_unlock => some Lock.suspend
  | .logger_Unlock => some Lock.logGate
  | _ => none

/-- Locks held after a trace, innermost first, starting from the locks `held`:
an acquisition pushes its lock, a release must name the innermost lock held and
pops it, any other event leaves the locks alone. The result is `none` when a
release does not match the innermost lock held. -/
def lockStack : List Lock → List Event → Option (List Lock)
  | held, [] => some held
  | held, e :: rest =>
    match e.acquires with
    | some l => lockStack (l :: held) rest
    | none =>
      match e.releases with
      | some l =>
        match held with
        | top :: below => if top = l then lockStack below rest else none
        | [] => none
      | none => lockStack held rest

/-- The event is a lock acquisition, a lock release, the call of `Do` or the
call of `Put`. -/
def Event.isSync : Event → Bool
  | .mutex_record_Lock _ => true
  | .rwlock_rdlock => true
  | .Do => true
  | .logger_Lock => true
  | .logger_Put _ => true
  | .logger_Unlock => true
  | .rwlock_unlock => true
  | .mutex_record_Unlock _ => true
  | _ => false

/-! ## Output buffer and `DealMessage` -/

/-- Output buffer of the connection, fields of the base class `RedisConn`
(declared outside the sources): the allocation `wbuf_` points to, the number
`wbuf_len_` of bytes of it that hold replies, and the flag written by
`set_is_reply`. The buffer is taken within the class invariant
`wbuf_len_ ≤ wbuf_size_`, where the unsigned difference of line 146 is the
plain difference. -/
structure Wbuf where
  wbuf_ : List Char
  wbuf_len_ : Nat
  is_reply : Bool
  deriving DecidableEq, Repr

/-- Field `wbuf_size_`: the size of the allocation `wbuf_` points to. -/
def Wbuf.wbuf_size_ (b : Wbuf) : Nat := b.wbuf_.length

/-- Call `memcpy(dst + offset, src, src.size())` on an allocation `dst`: the
bytes of `src` replace those at `offset`; `none` when the copy would run past
the allocation. -/
def memcpy (dst : List Char) (offset : Nat) (src : List Char) : Option (List Char) :=
  if offset + src.length ≤ dst.length then
    some (dst.take offset ++ src ++ dst.drop (offset + src.length))
  else none

/-- Modelled from the spec: `slash::StringToLower` is declared outside the
sources; the spec has names resolved case-insensitively, by their lowercase
form, so every byte `A`..`Z` is replaced by its lowercase letter and every
other byte is kept. -/
def StringToLower (s : String) : String :=
  String.mk (s.data.map Char.toLower)

/-- Modelled from the spec: what the spec says of growing the output buffer,
as a contract on `RedisConn::ExpandWbuf` (declared outside the sources), with
`none` for a returned `false`. A successful call makes the allocation strictly
larger, never larger than the fixed ceiling, and keeps the bytes already in it,
the length and the reply flag. -/
structure ExpandWbufSpec (ExpandWbuf : Wbuf → Option Wbuf) (ceiling : Nat) : Prop where
  grows : ∀ b b1, ExpandWbuf b = some b1 →
    b.wbuf_size_ < b1.wbuf_size_ ∧ b1.wbuf_size_ ≤ ceiling
  keeps : ∀ b b1, ExpandWbuf b = some b1 →
    b1.wbuf_len_ = b.wbuf_len_ ∧ b1.is_reply = b.is_reply
      ∧ b1.wbuf_.take b.wbuf_size_ = b.wbuf_

/-- Calls `DealMessage` makes, in program order. -/
inductive MsgEvent where
  /-- Call `self_thread_->PlusThreadQuerynum()`. -/
  | PlusThreadQuerynum
  /-- Call `DoCmd(opt)`. -/
  | DoCmd (opt : String)
  /-- Call `ExpandWbuf()`. -/
  | ExpandWbuf
  /-- Line written by `LOG(severity) << ...`. -/
  | LOG (severity : Severity) (text : String)
  /-- Call `set_is_reply(flag)`. -/
  | set_is_reply (flag : Bool)
  deriving DecidableEq, Repr

/-- How the loop of lines 146-154 ends, with the buffer it leaves and the
number of calls of `ExpandWbuf` it made: the reply fits, or `ExpandWbuf`
returned false, or the loop was cut off after the permitted number of
successful calls. -/
inductive Grown where
  | fits (b : Wbuf) (calls : Nat)
  | tooLarge (b : Wbuf) (calls : Nat)
  | outOfFuel
  deriving DecidableEq, Repr

/-- One more call of `ExpandWbuf` was made before the loop ended. -/
def Grown.called : Grown → Grown
  | .fits b calls => .fits b (calls + 1)
  | .tooLarge b calls => .tooLarge b (calls + 1)
  | .outOfFuel => .outOfFuel

/-- Loop `while (wbuf_size_ - wbuf_len_ <= res.size())` of lines 146-154, for
a reply of `res_size` bytes, cut off after `fuel` successful calls of
`ExpandWbuf`. -/
def wbuf_loop (ExpandWbuf : Wbuf → Option Wbuf) (res_size : Nat) : Nat → Wbuf → Grown
  | 0, b =>
    if b.wbuf_size_ - b.wbuf_len_ ≤ res_size then
      match ExpandWbuf b with
      | none => Grown.tooLarge b 1
      | some _ => Grown.outOfFuel
    else Grown.fits b 0
  | fuel + 1, b =>
    if b.wbuf_size_ - b.wbuf_len_ ≤ res_size then
      match ExpandWbuf b with
      | none => Grown.tooLarge b 1
      | some b1 => (wbuf_loop ExpandWbuf res_size fuel b1).called
    else Grown.fits b 0

/-- Ways a run of `DealMessage` has no result in the embedding: the loop was
cut off, or a `memcpy` would run past the allocation. -/
inductive Fault where
  | outOfFuel
  | bufferOverrun
  deriving DecidableEq, Repr

/-- Result of a call of `DealMessage`: the returned code, the state and the
buffer it leaves, the calls it made and the trace of its call of `DoCmd`. -/
structure DealOutcome (W : Type) where
  ret : Int
  st : State W
  buf : Wbuf
  calls : List MsgEvent
  trace : List Event

/-- Method `PikaClientConn::DealMessage` (lines 138-159). -/
def DealMessage {W : Type} (g : Globals W) (ExpandWbuf : Wbuf → Option Wbuf) (fuel : Nat)
    (s : State W) (b : Wbuf) : Except Fault (DealOutcome W) :=
  match s.conn.argv_ with
  | [] =>
    Except.ok { ret := -2, st := s, buf := b, calls := [MsgEvent.PlusThreadQuerynum],
                trace := [] }
  | argv0 :: _ =>
    let opt := StringToLower argv0
    let r := DoCmd g s opt
    match wbuf_loop ExpandWbuf r.reply.length fuel b with
    | Grown.outOfFuel => Except.error Fault.outOfFuel
    | Grown.tooLarge b1 calls =>
      match memcpy b1.wbuf_ 0 ("-ERR buf is too large\r\n".data.take 23) with
      | none => Except.error Fault.bufferOverrun
      | some m =>
        Except.ok
          { ret := 0
            st := r.st
            buf := { wbuf_ := m, wbuf_len_ := 23, is_reply := true }
            calls := [MsgEvent.PlusThreadQuerynum, MsgEvent.DoCmd opt]
              ++ List.replicate calls MsgEvent.ExpandWbuf
              ++ [MsgEvent.LOG Severity.WARNING "wbuf is too large",
                  MsgEvent.set_is_reply true]
            trace := r.trace }
    | Grown.fits b1 calls =>
      match memcpy b1.wbuf_ b1.wbuf_len_ r.reply.data with
      | none => Except.error Fault.bufferOverrun
      | some m =>
        Except.ok
          { ret := 0
            st := r.st
            buf := { wbuf_ := m, wbuf_len_ := b1.wbuf_len_ + r.reply.length,
                     is_reply := true }
            calls := [MsgEvent.PlusThreadQuerynum, MsgEvent.DoCmd opt]
              ++ List.replicate calls MsgEvent.ExpandWbuf
              ++ [MsgEvent.set_is_reply true]
            trace := r.trace }

/-- Growth policy of the example server: the allocation doubles, unless it is
empty or its double would exceed the ceiling. -/
def demoExpandWbuf (ceiling : Nat) (b : Wbuf) : Option Wbuf :=
  if b.wbuf_size_ = 0 ∨ ceiling < 2 * b.wbuf_size_ then none
  else some { b with wbuf_ := b.wbuf_ ++ List.replicate b.wbuf_size_ (Char.ofNat 0) }

/-- Output buffer of the example server: an allocation of `size` bytes whose
first bytes hold `pending`. -/
def demoWbuf (size : Nat) (pending : String) : Wbuf :=
  { wbuf_ := pending.data ++ List.replicate (size - pending.length) (Char.ofNat 0)
    wbuf_len_ := pending.length
    is_reply := false }
/-- No byte of the text is CR or LF. -/
def noCRLF (cs : List Char) : Bool :=
  cs.all fun c => c != '\r' && c != '\n'

/-- The reply is one protocol error line: it begins with `-`, ends with CRLF,
and has no other CR or LF byte. -/
def isErrorLine (reply : String) : Bool :=
  reply.data.head? == some '-'
    && reply.data.drop (reply.data.length - 2) == ['\r', '\n']
    && noCRLF (reply.data.take (reply.data.length - 2))

/-! ## Decoding the wire form -/

/-- Value of a run of decimal digits. -/
def digitsValue (ds : List Char) : Nat :=
  ds.foldl (fun acc c => acc * 10 + (c.toNat - 48)) 0

/-- Modelled from the spec: reader of one length line of the framing
`*<n>\r\n` / `$<len>\r\n`: the marker, a non-empty run of decimal digits and
CRLF; it yields the number and the text after the line. -/
def readLen (marker : Char) (cs : List Char) : Option (Nat × List Char) :=
  match cs with
  | [] => none
  | m :: rest =>
    if m = marker then
      match rest.dropWhile Char.isDigit with
      | c1 :: c2 :: tail =>
        if c1 = '\r' ∧ c2 = '\n' ∧ rest.takeWhile Char.isDigit ≠ [] then
          some (digitsValue (rest.takeWhile Char.isDigit), tail)
        else none
      | _ => none
    else none

/-- Modelled from the spec: reader of `n` bulk strings `$<len>\r\n<bytes>\r\n`;
it yields the strings and the text after them. -/
def readArgs : Nat → List Char → Option (List String × List Char)
  | 0, cs => some ([], cs)
  | n + 1, cs =>
    match readLen '$' cs with
    | none => none
    | some (len, rest) =>
      match rest.drop len with
      | c1 :: c2 :: tail =>
        if (rest.take len).length = len ∧ c1 = '\r' ∧ c2 = '\n' then
          match readArgs n tail with
          | some (args, left) => some (String.mk (rest.take len) :: args, left)
          | none => none
        else none
      | _ => none

/-- Modelled from the spec: decoder matching the framing
`*<n>\r\n$<len>\r\n<bytes>\r\n...`: the argument list a record encodes, `none`
when the text is not one whole record. -/
def decodeArgs (raw : String) : Option (List String) :=
  match readLen '*' raw.data with
  | none => none
  | some (n, rest) =>
    match readArgs n rest with
    | some (args, []) => some args
    | _ => none

/-! ## Handler messages -/

/-- C2. `IsAuthed` returns true exactly when the command name is the AUTH name,
or the status is `kAdminAuthed`, or the status is `kLimitAuthed` and the command
is neither flagged admin-required nor named in the blacklist; hence `kNoAuthed`
and every status outside the three enumerators authorize AUTH only. -/
theorem IsAuthed_decision_table (kCmdNameAuth : String) (blacklist : List String)
    (stat_ : StatType) (cinfo : CmdInfo) :
    ((AuthStat.IsAuthed kCmdNameAuth blacklist stat_ cinfo).1 = true ↔
        (cinfo.name = kCmdNameAuth ∨ stat_ = StatType.kAdminAuthed ∨
          (stat_ = StatType.kLimitAuthed ∧ cinfo.is_admin_require = false ∧
            cinfo.name ∉ blacklist)))
      ∧ ((AuthStat.IsAuthed kCmdNameAuth blacklist StatType.kNoAuthed cinfo).1 = true ↔
          cinfo.name = kCmdNameAuth)
      ∧ (∀ raw : Nat,
          ((AuthStat.IsAuthed kCmdNameAuth blacklist (StatType.invalid raw) cinfo).1 = true ↔
            cinfo.name = kCmdNameAuth)) := by
  refine ⟨?_, ?_, ?_⟩
  · unfold AuthStat.IsAuthed
    by_cases hn : cinfo.name = kCmdNameAuth
    · simp [hn]
    · cases stat_ <;> cases hadm : cinfo.is_admin_require <;>
        by_cases hb : cinfo.name ∈ blacklist <;> simp [hn, hadm, hb]
  · unfold AuthStat.IsAuthed
    by_cases hn : cinfo.name = kCmdNameAuth <;> simp [hn]
  · intro raw
    unfold AuthStat.IsAuthed
    by_cases hn : cinfo.name = kCmdNameAuth <;> simp [hn]

/-- C3. With both passwords empty `Init` yields `kAdminAuthed`, and in that
status `IsAuthed` returns true for every AUTH name, blacklist and descriptor. -/
theorem Init_no_password_authorizes_everything :
    AuthStat.Init "" "" = StatType.kAdminAuthed ∧
      ∀ (kCmdNameAuth : String) (blacklist : List String) (cinfo : CmdInfo),
        (AuthStat.IsAuthed kCmdNameAuth blacklist (AuthStat.Init "" "") cinfo).1 = true := by
  have hInit : AuthStat.Init "" "" = StatType.kAdminAuthed := by
    simp [AuthStat.Init]
  refine ⟨hInit, ?_⟩
  intro kCmdNameAuth blacklist cinfo
  rw [hInit]
  unfold AuthStat.IsAuthed
  by_cases hn : cinfo.name = kCmdNameAuth <;> simp [hn]

/-- C4, as the claim states it, fails: with only the restricted-user password
set (`userpass = "userpw"`, `requirepass` empty) `Init` yields `kNoAuthed`, not
`kLimitAuthed`, and the plain command `get` is not authorized. -/
theorem Init_only_userpass_not_restricted :
    AuthStat.Init "userpw" "" = StatType.kNoAuthed ∧
      AuthStat.Init "userpw" "" ≠ StatType.kLimitAuthed ∧
      (AuthStat.IsAuthed "auth" [] (AuthStat.Init "userpw" "") getInfo).1 = false := by
  decide

/-- C4, amended. `Init` yields the restricted status `kLimitAuthed` exactly
when `userpass` is empty and `requirepass` is not (only the admin password is
configured); in the status `Init` yields then, without AUTH, a command flagged
admin-required (other than AUTH) is rejected and a command that is neither
admin-required nor blacklisted is authorized. With `userpass` set and
`requirepass` empty `Init` yields `kNoAuthed`. -/
theorem Init_restricted_iff_only_requirepass (userpass requirepass : String) :
    (AuthStat.Init userpass requirepass = StatType.kLimitAuthed ↔
        (userpass = "" ∧ requirepass ≠ ""))
      ∧ (userpass = "" → requirepass ≠ "" →
          ∀ (kCmdNameAuth : String) (blacklist : List String) (cinfo : CmdInfo),
            (cinfo.name ≠ kCmdNameAuth → cinfo.is_admin_require = true →
              (AuthStat.IsAuthed kCmdNameAuth blacklist
                (AuthStat.Init userpass requirepass) cinfo).1 = false)
            ∧ (cinfo.is_admin_require = false → cinfo.name ∉ blacklist →
              (AuthStat.IsAuthed kCmdNameAuth blacklist
                (AuthStat.Init userpass requirepass) cinfo).1 = true))
      ∧ (userpass ≠ "" → requirepass = "" →
          AuthStat.Init userpass requirepass = StatType.kNoAuthed) := by
  refine ⟨?_, ?_, ?_⟩
  · unfold AuthStat.Init
    by_cases hu : userpass = "" <;> by_cases hr : requirepass = "" <;> simp [hu, hr]
  · intro hu hr kCmdNameAuth blacklist cinfo
    have hInit : AuthStat.Init userpass requirepass = StatType.kLimitAuthed := by
      simp [AuthStat.Init, hu, hr]
    rw [hInit]
    constructor
    · intro hn hadm
      simp [AuthStat.IsAuthed, hn, hadm]
    · intro hadm hb
      unfold AuthStat.IsAuthed
      by_cases hn : cinfo.name = kCmdNameAuth <;> simp [hn, hadm, hb]
  · intro hu hr
    simp [AuthStat.Init, hu]

/-- Instance of the amended C4 at `userpass = ""`, `requirepass = "adminpw"`:
the status is `kLimitAuthed`, `slaveof` (admin-required) is rejected and `get`
is authorized. -/
theorem Init_restricted_iff_only_requirepass_witness :
    AuthStat.Init "" "adminpw" = StatType.kLimitAuthed ∧
      (AuthStat.IsAuthed "auth" ["flushall"] (AuthStat.Init "" "adminpw") slaveofInfo).1 = false ∧
      (AuthStat.IsAuthed "auth" ["flushall"] (AuthStat.Init "" "adminpw") getInfo).1 = true :=
  ⟨(Init_restricted_iff_only_requirepass "" "adminpw").1.2 ⟨rfl, by decide⟩,
   ((Init_restricted_iff_only_requirepass "" "adminpw").2.1 rfl (by decide)
      "auth" ["flushall"] slaveofInfo).1 (by decide) rfl,
   ((Init_restricted_iff_only_requirepass "" "adminpw").2.1 rfl (by decide)
      "auth" ["flushall"] getInfo).2 rfl (by decide)⟩

/-- C5, as the claim states it, fails: with the admin password set
(`requirepass = "adminpw"`) and no restricted-user password, `Init` yields
`kLimitAuthed`, not `kNoAuthed`, and the command `get` is authorized before any
AUTH. -/
theorem Init_requirepass_alone_not_unauthenticated :
    AuthStat.Init "" "adminpw" = StatType.kLimitAuthed ∧
      AuthStat.Init "" "adminpw" ≠ StatType.kNoAuthed ∧
      (AuthStat.IsAuthed "auth" [] (AuthStat.Init "" "adminpw") getInfo).1 = true := by
  decide

/-- C5, amended. `Init` yields `kNoAuthed` exactly when the restricted-user
password `userpass` is configured, whether or not `requirepass` is configured
too; in the status `Init` yields then, before a successful AUTH, no command
other than AUTH is authorized. -/
theorem Init_unauthenticated_iff_userpass (userpass requirepass : String) :
    (AuthStat.Init userpass requirepass = StatType.kNoAuthed ↔ userpass ≠ "")
      ∧ (userpass ≠ "" →
          ∀ (kCmdNameAuth : String) (blacklist : List String) (cinfo : CmdInfo),
            cinfo.name ≠ kCmdNameAuth →
              (AuthStat.IsAuthed kCmdNameAuth blacklist
                (AuthStat.Init userpass requirepass) cinfo).1 = false) := by
  refine ⟨?_, ?_⟩
  · unfold AuthStat.Init
    by_cases hu : userpass = "" <;> by_cases hr : requirepass = "" <;> simp [hu, hr]
  · intro hu kCmdNameAuth blacklist cinfo hn
    have hInit : AuthStat.Init userpass requirepass = StatType.kNoAuthed := by
      simp [AuthStat.Init, hu]
    rw [hInit]
    simp [AuthStat.IsAuthed, hn]

/-- Instance of the amended C5 with both passwords set: the status is
`kNoAuthed` and `get` is not authorized. -/
theorem Init_unauthenticated_iff_userpass_witness :
    AuthStat.Init "userpw" "adminpw" = StatType.kNoAuthed ∧
      (AuthStat.IsAuthed "auth" [] (AuthStat.Init "userpw" "adminpw") getInfo).1 = false :=
  ⟨(Init_unauthenticated_iff_userpass "userpw" "adminpw").1.2 (by decide),
   (Init_unauthenticated_iff_userpass "userpw" "adminpw").2 (by decide)
      "auth" [] getInfo (by decide)⟩

/-- C6. For every prior status, `ChecknUpdate` returns true and leaves
`kAdminAuthed` on the message `ROOT`, returns true and leaves `kLimitAuthed` on
the message `USER`, and on every other message returns false and leaves the
status as it was. -/
theorem ChecknUpdate_transitions (stat_ : StatType) (message : String) :
    AuthStat.ChecknUpdate stat_ "ROOT" = (true, StatType.kAdminAuthed)
      ∧ AuthStat.ChecknUpdate stat_ "USER" = (true, StatType.kLimitAuthed)
      ∧ (message ≠ "ROOT" → message ≠ "USER" →
          AuthStat.ChecknUpdate stat_ message = (false, stat_)) := by
  refine ⟨?_, ?_, ?_⟩
  · simp [AuthStat.ChecknUpdate]
  · simp [AuthStat.ChecknUpdate]
  · intro hr hu
    simp [AuthStat.ChecknUpdate, hr, hu]

/-- Instance of C6: the wrong-password message leaves `kNoAuthed` in place, and
`ROOT` lifts it to `kAdminAuthed`. -/
theorem ChecknUpdate_transitions_witness :
    AuthStat.ChecknUpdate StatType.kNoAuthed "ROOT" = (true, StatType.kAdminAuthed)
      ∧ AuthStat.ChecknUpdate StatType.kNoAuthed "invalid password"
        = (false, StatType.kNoAuthed) :=
  ⟨(ChecknUpdate_transitions StatType.kNoAuthed "invalid password").1,
   (ChecknUpdate_transitions StatType.kNoAuthed "invalid password").2.2
      (by decide) (by decide)⟩

/-! ## Traces: auxiliary facts -/

theorem IsAuthed_trace_isLOG (kCmdNameAuth : String) (blacklist : List String)
    (stat_ : StatType) (cinfo : CmdInfo) :
    ∀ e ∈ (AuthStat.IsAuthed kCmdNameAuth blacklist stat_ cinfo).2, e.isLOG = true := by
  unfold AuthStat.IsAuthed
  by_cases hn : cinfo.name = kCmdNameAuth
  · simp [hn]
  · cases stat_ <;> simp [hn, Event.isLOG]
    split_ifs <;> simp

theorem slowlog_isLOG {W : Type} (g : Globals W) (w : W) (opt : String) (start_us : Nat) :
    ∀ e ∈ slowlog g w opt start_us, e.isLOG = true := by
  unfold slowlog
  split_ifs <;> simp [Event.isLOG]

theorem puts_append (a b : List Event) : puts (a ++ b) = puts a ++ puts b := by
  simp [puts, List.filterMap_append]

theorem puts_of_isLOG (t : List Event) (h : ∀ e ∈ t, e.isLOG = true) : puts t = [] := by
  induction t with
  | nil => rfl
  | cons e t ih =>
    have he := h e (List.mem_cons_self e t)
    have ht := ih (fun x hx => h x (List.mem_cons_of_mem e hx))
    cases e <;> simp_all [puts, Event.isLOG]

theorem puts_nil : puts [] = [] := rfl

theorem puts_cons_Put (r : String) (t : List Event) :
    puts (Event.logger_Put r :: t) = r :: puts t := rfl

theorem puts_cons_other (e : Event) (t : List Event) (h : ∀ r, e ≠ Event.logger_Put r) :
    puts (e :: t) = puts t := by
  cases e <;> first | rfl | exact absurd rfl (h _)

/-! ## The six paths of `DoCmd` -/

theorem DoCmd_unknown {W : Type} (g : Globals W) (s : State W) (opt : String)
    (h : g.GetCmdInfo opt = none ∨ g.GetCmd opt = none) :
    DoCmd g s opt =
      { reply := "-Err unknown or unsupported command '" ++ opt ++ "'\r\n"
        st := s
        trace := [] } := by
  unfold DoCmd
  split
  · rename_i cinfo c hinfo hcmd
    rcases h with h | h
    · rw [h] at hinfo; cases hinfo
    · rw [h] at hcmd; cases hcmd
  · rfl

theorem DoCmd_authRequired {W : Type} (g : Globals W) (s : State W) (opt : String)
    (cinfo : CmdInfo) (c : Cmd W)
    (hinfo : g.GetCmdInfo opt = some cinfo) (hcmd : g.GetCmd opt = some c)
    (hauth : (AuthStat.IsAuthed g.kCmdNameAuth (g.vuser_blacklist s.world)
      s.conn.auth_stat_ cinfo).1 = false) :
    DoCmd g s opt =
      { reply := "-ERR NOAUTH Authentication required.\r\n"
        st := s
        trace := (AuthStat.IsAuthed g.kCmdNameAuth (g.vuser_blacklist s.world)
            s.conn.auth_stat_ cinfo).2 ++
          [Event.LOG Severity.WARNING ("(" ++ s.conn.ip_port ++ ")Authentication required")] } := by
  unfold DoCmd
  simp only [hinfo, hcmd]
  rw [if_pos hauth]

theorem DoCmd_localOnlyViolation {W : Type} (g : Globals W) (s : State W) (opt : String)
    (cinfo : CmdInfo) (c : Cmd W)
    (hinfo : g.GetCmdInfo opt = some cinfo) (hcmd : g.GetCmd opt = some c)
    (hauth : ¬ (AuthStat.IsAuthed g.kCmdNameAuth (g.vuser_blacklist s.world)
      s.conn.auth_stat_ cinfo).1 = false)
    (hlocal : cinfo.is_local = true ∧ string_find s.conn.ip_port "127.0.0.1" = none
      ∧ string_find s.conn.ip_port (g.host s.world) = none) :
    DoCmd g s opt =
      { reply := "-ERR 'shutdown' should be localhost\r\n"
        st := s
        trace := (AuthStat.IsAuthed g.kCmdNameAuth (g.vuser_blacklist s.world)
            s.conn.auth_stat_ cinfo).2 ++
          [Event.LOG Severity.WARNING "'shutdown' should be localhost"] } := by
  unfold DoCmd
  simp only [hinfo, hcmd]
  rw [if_neg hauth, if_pos hlocal]

theorem DoCmd_initialFailure {W : Type} (g : Globals W) (s : State W) (opt : String)
    (cinfo : CmdInfo) (c : Cmd W)
    (hinfo : g.GetCmdInfo opt = some cinfo) (hcmd : g.GetCmd opt = some c)
    (hauth : ¬ (AuthStat.IsAuthed g.kCmdNameAuth (g.vuser_blacklist s.world)
      s.conn.auth_stat_ cinfo).1 = false)
    (hlocal : ¬ (cinfo.is_local = true ∧ string_find s.conn.ip_port "127.0.0.1" = none
      ∧ string_find s.conn.ip_port (g.host s.world) = none))
    (hinit : (c.res (c.Initial (argv_for_Initial g s.conn opt) cinfo s.world).2).ok = false) :
    DoCmd g s opt =
      { reply := (c.res (c.Initial (argv_for_Initial g s.conn opt) cinfo s.world).2).message
        st :=
          { conn := { s.conn with
              argv_ := (c.Initial (argv_for_Initial g s.conn opt) cinfo s.world).1 }
            world := (c.Initial (argv_for_Initial g s.conn opt) cinfo s.world).2
            logger_ := s.logger_ }
        trace := (AuthStat.IsAuthed g.kCmdNameAuth (g.vuser_blacklist s.world)
            s.conn.auth_stat_ cinfo).2 ++
          (if g.HasMonitorClients s.world = true then
            [Event.AddMonitorMessage (monitor_message g s.world s.conn)]
          else []) ++ [Event.Initial] } := by
  unfold DoCmd
  simp only [hinfo, hcmd]
  rw [if_neg hauth, if_neg hlocal, if_pos hinit]

theorem DoCmd_readOnlyServer {W : Type} (g : Globals W) (s : State W) (opt : String)
    (cinfo : CmdInfo) (c : Cmd W)
    (hinfo : g.GetCmdInfo opt = some cinfo) (hcmd : g.GetCmd opt = some c)
    (hauth : ¬ (AuthStat.IsAuthed g.kCmdNameAuth (g.vuser_blacklist s.world)
      s.conn.auth_stat_ cinfo).1 = false)
    (hlocal : ¬ (cinfo.is_local = true ∧ string_find s.conn.ip_port "127.0.0.1" = none
      ∧ string_find s.conn.ip_port (g.host s.world) = none))
    (hinit : ¬ (c.res (c.Initial (argv_for_Initial g s.conn opt) cinfo s.world).2).ok = false)
    (hro : cinfo.is_write = true
      ∧ g.readonly (c.Initial (argv_for_Initial g s.conn opt) cinfo s.world).2 = true) :
    DoCmd g s opt =
      { reply := "-ERR Server in read-only\r\n"
        st :=
          { conn := { s.conn with
              argv_ := (c.Initial (argv_for_Initial g s.conn opt) cinfo s.world).1 }
            world := (c.Initial (argv_for_Initial g s.conn opt) cinfo s.world).2
            logger_ := s.logger_ }
        trace := (AuthStat.IsAuthed g.kCmdNameAuth (g.vuser_blacklist s.world)
            s.conn.auth_stat_ cinfo).2 ++
          (if g.HasMonitorClients s.world = true then
            [Event.AddMonitorMessage (monitor_message g s.world s.conn)]
          else []) ++ [Event.Initial] } := by
  unfold DoCmd
  simp only [hinfo, hcmd]
  rw [if_neg hauth, if_neg hlocal, if_neg hinit, if_pos hro]

theorem DoCmd_executed {W : Type} (g : Globals W) (s : State W) (opt : String)
    (cinfo : CmdInfo) (c : Cmd W)
    (hinfo : g.GetCmdInfo opt = some cinfo) (hcmd : g.GetCmd opt = some c)
    (hauth : ¬ (AuthStat.IsAuthed g.kCmdNameAuth (g.vuser_blacklist s.world)
      s.conn.auth_stat_ cinfo).1 = false)
    (hlocal : ¬ (cinfo.is_local = true ∧ string_find s.conn.ip_port "127.0.0.1" = none
      ∧ string_find s.conn.ip_port (g.host s.world) = none))
    (hinit : ¬ (c.res (c.Initial (argv_for_Initial g s.conn opt) cinfo s.world).2).ok = false)
    (hro : ¬ (cinfo.is_write = true
      ∧ g.readonly (c.Initial (argv_for_Initial g s.conn opt) cinfo s.world).2 = true)) :
    DoCmd g s opt =
      (let i := c.Initial (argv_for_Initial g s.conn opt) cinfo s.world
       let w2 := c.Do i.2
       let logged : Bool := cinfo.is_write && (c.res w2).ok
       let upd : Bool × StatType :=
         if opt = g.kCmdNameAuth then
           AuthStat.ChecknUpdate s.conn.auth_stat_ (c.res w2).raw_message
         else (true, s.conn.auth_stat_)
       { reply := (c.res w2).message
         st :=
           { conn := { s.conn with argv_ := i.1, auth_stat_ := upd.2 }
             world := w2
             logger_ :=
               if logged = true then
                 s.logger_ ++ [if cinfo.is_write = true then RestoreArgs i.1 else ""]
               else s.logger_ }
         trace :=
           (AuthStat.IsAuthed g.kCmdNameAuth (g.vuser_blacklist s.world)
              s.conn.auth_stat_ cinfo).2 ++
           (if g.HasMonitorClients s.world = true then
             [Event.AddMonitorMessage (monitor_message g s.world s.conn)]
           else []) ++ [Event.Initial]
           ++ (if cinfo.is_write = true ∧ 2 ≤ i.1.length then
                 [Event.mutex_record_Lock (i.1.getD 1 "")]
               else [])
           ++ (if cinfo.is_suspend = false then [Event.rwlock_rdlock] else [])
           ++ [Event.Do]
           ++ (if logged = true then
                 [Event.logger_Lock,
                  Event.logger_Put (if cinfo.is_write = true then RestoreArgs i.1 else ""),
                  Event.logger_Unlock]
               else [])
           ++ (if cinfo.is_suspend = false then [Event.rwlock_unlock] else [])
           ++ (if cinfo.is_write = true ∧ 2 ≤ i.1.length then
                 [Event.mutex_record_Unlock (i.1.getD 1 "")]
               else [])
           ++ slowlog g w2 opt
                (if 0 ≤ g.slowlog_slower_than s.world then g.NowMicros s.world % 2 ^ 64 else 0)
           ++ (if upd.1 = false then
                 [Event.LOG Severity.WARNING ("(" ++ s.conn.ip_port ++ ")Wrong Password")]
               else []) }) := by
  unfold DoCmd
  simp only [hinfo, hcmd]
  rw [if_neg hauth, if_neg hlocal, if_neg hinit, if_neg hro]

/-! ## Command admission and execution: theorems -/

/-- C7. A call of `DoCmd` under a name other than the AUTH name leaves the
connection's authentication status as it found it, whichever return it takes
and whatever the handler reports. -/
theorem DoCmd_keeps_auth_stat {W : Type} (g : Globals W) (s : State W) (opt : String)
    (h : opt ≠ g.kCmdNameAuth) :
    (DoCmd g s opt).st.conn.auth_stat_ = s.conn.auth_stat_ := by
  cases hinfo : g.GetCmdInfo opt with
  | none => rw [DoCmd_unknown g s opt (Or.inl hinfo)]
  | some cinfo =>
    cases hcmd : g.GetCmd opt with
    | none => rw [DoCmd_unknown g s opt (Or.inr hcmd)]
    | some c =>
      by_cases hauth : (AuthStat.IsAuthed g.kCmdNameAuth (g.vuser_blacklist s.world)
          s.conn.auth_stat_ cinfo).1 = false
      · rw [DoCmd_authRequired g s opt cinfo c hinfo hcmd hauth]
      · by_cases hlocal : cinfo.is_local = true ∧ string_find s.conn.ip_port "127.0.0.1" = none
            ∧ string_find s.conn.ip_port (g.host s.world) = none
        · rw [DoCmd_localOnlyViolation g s opt cinfo c hinfo hcmd hauth hlocal]
        · by_cases hinit :
              (c.res (c.Initial (argv_for_Initial g s.conn opt) cinfo s.world).2).ok = false
          · rw [DoCmd_initialFailure g s opt cinfo c hinfo hcmd hauth hlocal hinit]
          · by_cases hro : cinfo.is_write = true
                ∧ g.readonly (c.Initial (argv_for_Initial g s.conn opt) cinfo s.world).2 = true
            · rw [DoCmd_readOnlyServer g s opt cinfo c hinfo hcmd hauth hlocal hinit hro]
            · rw [DoCmd_executed g s opt cinfo c hinfo hcmd hauth hlocal hinit hro]
              simp only [if_neg h]

/-- C8. When the command resolves to a descriptor and a handler and `IsAuthed`
rejects the descriptor in the connection's status, `DoCmd` returns exactly the
NOAUTH reply, leaves the whole state (argument list, status, world, log) as it
was, and its trace holds glog lines only: no monitor message, no `Initial`, no
`Do`, no lock, no `Put`. -/
theorem DoCmd_unauthorized_stops {W : Type} (g : Globals W) (s : State W) (opt : String)
    (cinfo : CmdInfo) (c : Cmd W)
    (hinfo : g.GetCmdInfo opt = some cinfo) (hcmd : g.GetCmd opt = some c)
    (hauth : (AuthStat.IsAuthed g.kCmdNameAuth (g.vuser_blacklist s.world)
      s.conn.auth_stat_ cinfo).1 = false) :
    (DoCmd g s opt).reply = "-ERR NOAUTH Authentication required.\r\n"
      ∧ (DoCmd g s opt).st = s
      ∧ (DoCmd g s opt).trace =
          (AuthStat.IsAuthed g.kCmdNameAuth (g.vuser_blacklist s.world)
            s.conn.auth_stat_ cinfo).2 ++
          [Event.LOG Severity.WARNING ("(" ++ s.conn.ip_port ++ ")Authentication required")]
      ∧ (∀ e ∈ (DoCmd g s opt).trace, e.isLOG = true)
      ∧ (∀ m, Event.AddMonitorMessage m ∉ (DoCmd g s opt).trace)
      ∧ Event.Initial ∉ (DoCmd g s opt).trace
      ∧ Event.Do ∉ (DoCmd g s opt).trace
      ∧ (∀ e ∈ (DoCmd g s opt).trace, e.isLockAcquire = false)
      ∧ puts (DoCmd g s opt).trace = [] := by
  have hLOG : ∀ e ∈ (DoCmd g s opt).trace, e.isLOG = true := by
    rw [DoCmd_authRequired g s opt cinfo c hinfo hcmd hauth]
    intro e he
    rcases List.mem_append.1 he with he | he
    · exact IsAuthed_trace_isLOG _ _ _ _ e he
    · rw [List.mem_singleton.1 he]; rfl
  refine ⟨?_, ?_, ?_, hLOG, ?_, ?_, ?_, ?_, puts_of_isLOG _ hLOG⟩
  · rw [DoCmd_authRequired g s opt cinfo c hinfo hcmd hauth]
  · rw [DoCmd_authRequired g s opt cinfo c hinfo hcmd hauth]
  · rw [DoCmd_authRequired g s opt cinfo c hinfo hcmd hauth]
  · intro m hm
    simpa [Event.isLOG] using hLOG _ hm
  · intro hm
    simpa [Event.isLOG] using hLOG _ hm
  · intro hm
    simpa [Event.isLOG] using hLOG _ hm
  · intro e he
    have := hLOG e he
    cases e <;> simp_all [Event.isLOG, Event.isLockAcquire]

/-- Instance of C8: `set k v` on a connection in the status `kNoAuthed`. -/
theorem DoCmd_unauthorized_stops_witness :
    (DoCmd (demoGlobals false "10.0.0.1")
        (demoState "192.168.0.7:40312" StatType.kNoAuthed ["set", "k", "v"]) "set").reply
      = "-ERR NOAUTH Authentication required.\r\n"
      ∧ (DoCmd (demoGlobals false "10.0.0.1")
          (demoState "192.168.0.7:40312" StatType.kNoAuthed ["set", "k", "v"]) "set").st
        = demoState "192.168.0.7:40312" StatType.kNoAuthed ["set", "k", "v"] :=
  ⟨(DoCmd_unauthorized_stops (demoGlobals false "10.0.0.1")
      (demoState "192.168.0.7:40312" StatType.kNoAuthed ["set", "k", "v"]) "set"
      setInfo setCmd rfl rfl (by decide)).1,
   (DoCmd_unauthorized_stops (demoGlobals false "10.0.0.1")
      (demoState "192.168.0.7:40312" StatType.kNoAuthed ["set", "k", "v"]) "set"
      setInfo setCmd rfl rfl (by decide)).2.1⟩

/-- Instance of C7: `get k` run by an administrator; the status stays
`kAdminAuthed`. -/
theorem DoCmd_keeps_auth_stat_witness :
    (DoCmd (demoGlobals false "10.0.0.1")
        (demoState "192.168.0.7:40312" StatType.kAdminAuthed ["get", "k"]) "get").st.conn.auth_stat_
      = StatType.kAdminAuthed :=
  DoCmd_keeps_auth_stat (demoGlobals false "10.0.0.1")
    (demoState "192.168.0.7:40312" StatType.kAdminAuthed ["get", "k"]) "get" (by decide)

/-- C9. Whenever a call of `DoCmd` takes one of its five early returns (unknown
command, authorization failure, local-only violation, `Initial` failure, write
on a read-only server), its trace holds no acquisition of the key lock, of the
suspend lock or of the log gate, holds no `Do` and no `Put`, and the log is as
it was; a call that takes none of them does invoke `Do`. -/
theorem DoCmd_early_return_takes_no_lock {W : Type} (g : Globals W) (s : State W)
    (opt : String) :
    (earlyReturn g s opt ≠ none →
        (∀ e ∈ (DoCmd g s opt).trace, e.isLockAcquire = false)
          ∧ Event.Do ∉ (DoCmd g s opt).trace
          ∧ puts (DoCmd g s opt).trace = []
          ∧ (DoCmd g s opt).st.logger_ = s.logger_)
      ∧ (earlyReturn g s opt = none → Event.Do ∈ (DoCmd g s opt).trace) := by
  have quiet : ∀ t : List Event, (∀ e ∈ t, e.isLOG = true ∨ e = Event.Initial ∨
      ∃ m, e = Event.AddMonitorMessage m) →
      (∀ e ∈ t, e.isLockAcquire = false) ∧ Event.Do ∉ t ∧ puts t = [] := by
    intro t ht
    refine ⟨?_, ?_, ?_⟩
    · intro e he
      rcases ht e he with h | h | ⟨m, h⟩
      · cases e <;> simp_all [Event.isLOG, Event.isLockAcquire]
      · rw [h]; rfl
      · rw [h]; rfl
    · intro he
      rcases ht _ he with h | h | ⟨m, h⟩
      · simp [Event.isLOG] at h
      · cases h
      · cases h
    · induction t with
      | nil => rfl
      | cons e t ih =>
        have ht2 := ih (fun x hx => ht x (List.mem_cons_of_mem e hx))
        rcases ht e (List.mem_cons_self e t) with h | h | ⟨m, h⟩
        · cases e <;> simp_all [puts, Event.isLOG]
        · subst h; simpa [puts] using ht2
        · subst h; simpa [puts] using ht2
  have hinitial : ∀ (cinfo : CmdInfo), ∀ e ∈
      (AuthStat.IsAuthed g.kCmdNameAuth (g.vuser_blacklist s.world) s.conn.auth_stat_ cinfo).2 ++
        (if g.HasMonitorClients s.world = true then
          [Event.AddMonitorMessage (monitor_message g s.world s.conn)]
        else []) ++ [Event.Initial],
      e.isLOG = true ∨ e = Event.Initial ∨ ∃ m, e = Event.AddMonitorMessage m := by
    intro cinfo e he
    rcases List.mem_append.1 he with he | he
    · rcases List.mem_append.1 he with he | he
      · exact Or.inl (IsAuthed_trace_isLOG _ _ _ _ e he)
      · split_ifs at he
        · exact Or.inr (Or.inr ⟨_, List.mem_singleton.1 he⟩)
        · cases he
    · exact Or.inr (Or.inl (List.mem_singleton.1 he))
  cases hinfo : g.GetCmdInfo opt with
  | none =>
    rw [DoCmd_unknown g s opt (Or.inl hinfo)]
    simp [earlyReturn, hinfo, puts]
  | some cinfo =>
    cases hcmd : g.GetCmd opt with
    | none =>
      rw [DoCmd_unknown g s opt (Or.inr hcmd)]
      simp [earlyReturn, hinfo, hcmd, puts]
    | some c =>
      by_cases hauth : (AuthStat.IsAuthed g.kCmdNameAuth (g.vuser_blacklist s.world)
          s.conn.auth_stat_ cinfo).1 = false
      · rw [DoCmd_authRequired g s opt cinfo c hinfo hcmd hauth]
        have hq := quiet ((AuthStat.IsAuthed g.kCmdNameAuth (g.vuser_blacklist s.world)
            s.conn.auth_stat_ cinfo).2 ++
          [Event.LOG Severity.WARNING ("(" ++ s.conn.ip_port ++ ")Authentication required")])
          (by
            intro e he
            rcases List.mem_append.1 he with he | he
            · exact Or.inl (IsAuthed_trace_isLOG _ _ _ _ e he)
            · rw [List.mem_singleton.1 he]; exact Or.inl rfl)
        refine ⟨fun _ => ⟨hq.1, hq.2.1, hq.2.2, rfl⟩, ?_⟩
        intro hnone
        simp [earlyReturn, hinfo, hcmd, hauth] at hnone
      · by_cases hlocal : cinfo.is_local = true ∧ string_find s.conn.ip_port "127.0.0.1" = none
            ∧ string_find s.conn.ip_port (g.host s.world) = none
        · rw [DoCmd_localOnlyViolation g s opt cinfo c hinfo hcmd hauth hlocal]
          have hq := quiet ((AuthStat.IsAuthed g.kCmdNameAuth (g.vuser_blacklist s.world)
              s.conn.auth_stat_ cinfo).2 ++
            [Event.LOG Severity.WARNING "'shutdown' should be localhost"])
            (by
              intro e he
              rcases List.mem_append.1 he with he | he
              · exact Or.inl (IsAuthed_trace_isLOG _ _ _ _ e he)
              · rw [List.mem_singleton.1 he]; exact Or.inl rfl)
          refine ⟨fun _ => ⟨hq.1, hq.2.1, hq.2.2, rfl⟩, ?_⟩
          intro hnone
          simp only [earlyReturn, hinfo, hcmd, if_neg hauth, if_pos hlocal] at hnone
          cases hnone
        · by_cases hinit :
              (c.res (c.Initial (argv_for_Initial g s.conn opt) cinfo s.world).2).ok = false
          · rw [DoCmd_initialFailure g s opt cinfo c hinfo hcmd hauth hlocal hinit]
            have hq := quiet _ (hinitial cinfo)
            refine ⟨fun _ => ⟨hq.1, hq.2.1, hq.2.2, rfl⟩, ?_⟩
            intro hnone
            simp only [earlyReturn, hinfo, hcmd, if_neg hauth, if_neg hlocal, if_pos hinit]
              at hnone
            cases hnone
          · by_cases hro : cinfo.is_write = true
                ∧ g.readonly (c.Initial (argv_for_Initial g s.conn opt) cinfo s.world).2 = true
            · rw [DoCmd_readOnlyServer g s opt cinfo c hinfo hcmd hauth hlocal hinit hro]
              have hq := quiet _ (hinitial cinfo)
              refine ⟨fun _ => ⟨hq.1, hq.2.1, hq.2.2, rfl⟩, ?_⟩
              intro hnone
              simp only [earlyReturn, hinfo, hcmd, if_neg hauth, if_neg hlocal, if_neg hinit,
                if_pos hro] at hnone
              cases hnone
            · rw [DoCmd_executed g s opt cinfo c hinfo hcmd hauth hlocal hinit hro]
              constructor
              · intro hsome
                exfalso
                apply hsome
                simp only [earlyReturn, hinfo, hcmd, if_neg hauth, if_neg hlocal, if_neg hinit,
                  if_neg hro]
              · intro _
                simp

/-- Instance of C9: `set k v` by an administrator on a read-only server returns
early; the trace is the single call of `Initial` and the log stays empty. -/
theorem DoCmd_early_return_takes_no_lock_witness :
    earlyReturn (demoGlobals true "10.0.0.1")
        (demoState "192.168.0.7:40312" StatType.kAdminAuthed ["set", "k", "v"]) "set"
      = some EarlyReturn.readOnlyServer
      ∧ Event.Do ∉ (DoCmd (demoGlobals true "10.0.0.1")
          (demoState "192.168.0.7:40312" StatType.kAdminAuthed ["set", "k", "v"]) "set").trace
      ∧ (DoCmd (demoGlobals true "10.0.0.1")
          (demoState "192.168.0.7:40312" StatType.kAdminAuthed ["set", "k", "v"]) "set").st.logger_
        = [] :=
  ⟨by decide,
   ((DoCmd_early_return_takes_no_lock (demoGlobals true "10.0.0.1")
      (demoState "192.168.0.7:40312" StatType.kAdminAuthed ["set", "k", "v"]) "set").1
      (by decide)).2.1,
   ((DoCmd_early_return_takes_no_lock (demoGlobals true "10.0.0.1")
      (demoState "192.168.0.7:40312" StatType.kAdminAuthed ["set", "k", "v"]) "set").1
      (by decide)).2.2.2⟩

/-- One call of `DoCmd` appends to the log, and hands to `Put`, exactly the
record it owes. -/
theorem DoCmd_log_step {W : Type} (g : Globals W) (s : State W) (opt : String) :
    (DoCmd g s opt).st.logger_ = s.logger_ ++ (successfulWriteRecord g s opt).toList
      ∧ puts (DoCmd g s opt).trace = (successfulWriteRecord g s opt).toList
      ∧ (∀ r, successfulWriteRecord g s opt = some r →
          r = RestoreArgs (DoCmd g s opt).st.conn.argv_) := by
  have hIs : ∀ cinfo : CmdInfo, puts (AuthStat.IsAuthed g.kCmdNameAuth
      (g.vuser_blacklist s.world) s.conn.auth_stat_ cinfo).2 = [] :=
    fun cinfo => puts_of_isLOG _ (IsAuthed_trace_isLOG _ _ _ _)
  have hSl : ∀ (w : W) (start_us : Nat), puts (slowlog g w opt start_us) = [] :=
    fun w start_us => puts_of_isLOG _ (slowlog_isLOG _ _ _ _)
  cases hinfo : g.GetCmdInfo opt with
  | none =>
    rw [DoCmd_unknown g s opt (Or.inl hinfo)]
    simp [successfulWriteRecord, hinfo, puts_nil]
  | some cinfo =>
    cases hcmd : g.GetCmd opt with
    | none =>
      rw [DoCmd_unknown g s opt (Or.inr hcmd)]
      simp [successfulWriteRecord, hinfo, hcmd, puts_nil]
    | some c =>
      by_cases hauth : (AuthStat.IsAuthed g.kCmdNameAuth (g.vuser_blacklist s.world)
          s.conn.auth_stat_ cinfo).1 = false
      · rw [DoCmd_authRequired g s opt cinfo c hinfo hcmd hauth]
        have hrec : successfulWriteRecord g s opt = none := by
          simp [successfulWriteRecord, hinfo, hcmd, hauth]
        simp [hrec, puts_append, hIs, puts_nil, puts_cons_other]
      · by_cases hlocal : cinfo.is_local = true ∧ string_find s.conn.ip_port "127.0.0.1" = none
            ∧ string_find s.conn.ip_port (g.host s.world) = none
        · rw [DoCmd_localOnlyViolation g s opt cinfo c hinfo hcmd hauth hlocal]
          have hrec : successfulWriteRecord g s opt = none := by
            simp only [successfulWriteRecord, hinfo, hcmd]
            rw [if_neg]
            intro hc
            exact hc.2.2.1 hlocal
          simp [hrec, puts_append, hIs, puts_nil, puts_cons_other]
        · by_cases hinit :
              (c.res (c.Initial (argv_for_Initial g s.conn opt) cinfo s.world).2).ok = false
          · rw [DoCmd_initialFailure g s opt cinfo c hinfo hcmd hauth hlocal hinit]
            have hrec : successfulWriteRecord g s opt = none := by
              simp only [successfulWriteRecord, hinfo, hcmd]
              rw [if_neg]
              intro hc
              rw [hc.2.2.2.1] at hinit
              cases hinit
            simp [hrec, puts_append, apply_ite puts, hIs, puts_nil, puts_cons_other]
          · by_cases hro : cinfo.is_write = true
                ∧ g.readonly (c.Initial (argv_for_Initial g s.conn opt) cinfo s.world).2 = true
            · rw [DoCmd_readOnlyServer g s opt cinfo c hinfo hcmd hauth hlocal hinit hro]
              have hrec : successfulWriteRecord g s opt = none := by
                simp only [successfulWriteRecord, hinfo, hcmd]
                rw [if_neg]
                intro hc
                rw [hro.2] at hc
                exact Bool.noConfusion hc.2.2.2.2.1
              simp [hrec, puts_append, apply_ite puts, hIs, puts_nil, puts_cons_other]
            · rw [DoCmd_executed g s opt cinfo c hinfo hcmd hauth hlocal hinit hro]
              have hauth2 : (AuthStat.IsAuthed g.kCmdNameAuth (g.vuser_blacklist s.world)
                  s.conn.auth_stat_ cinfo).1 = true := by
                simpa using hauth
              have hinit2 :
                  (c.res (c.Initial (argv_for_Initial g s.conn opt) cinfo s.world).2).ok = true := by
                simpa using hinit
              by_cases hw : cinfo.is_write = true
              · have hro2 : g.readonly
                    (c.Initial (argv_for_Initial g s.conn opt) cinfo s.world).2 = false := by
                  cases hr : g.readonly
                    (c.Initial (argv_for_Initial g s.conn opt) cinfo s.world).2
                  · rfl
                  · exact absurd ⟨hw, hr⟩ hro
                by_cases hok : (c.res (c.Do
                    (c.Initial (argv_for_Initial g s.conn opt) cinfo s.world).2)).ok = true
                · have hrec : successfulWriteRecord g s opt = some (RestoreArgs
                      (c.Initial (argv_for_Initial g s.conn opt) cinfo s.world).1) := by
                    simp only [successfulWriteRecord, hinfo, hcmd]
                    rw [if_pos ⟨hw, hauth2, hlocal, hinit2, hro2, hok⟩]
                  simp [hrec, puts_append, apply_ite puts, hIs, hSl, puts_nil, puts_cons_Put,
                    puts_cons_other, hw, hok]
                · have hrec : successfulWriteRecord g s opt = none := by
                    simp only [successfulWriteRecord, hinfo, hcmd]
                    rw [if_neg]
                    intro hc
                    exact hok hc.2.2.2.2.2
                  have hok2 : (c.res (c.Do
                      (c.Initial (argv_for_Initial g s.conn opt) cinfo s.world).2)).ok = false := by
                    simpa using hok
                  simp [hrec, puts_append, apply_ite puts, hIs, hSl, puts_nil, puts_cons_Put,
                    puts_cons_other, hw, hok2]
              · have hw2 : cinfo.is_write = false := by simpa using hw
                have hrec : successfulWriteRecord g s opt = none := by
                  simp only [successfulWriteRecord, hinfo, hcmd]
                  rw [if_neg]
                  intro hc
                  exact hw hc.1
                simp [hrec, puts_append, apply_ite puts, hIs, hSl, puts_nil, puts_cons_Put,
                  puts_cons_other, hw2]

/-- C1. Every call of `DoCmd` hands to the log sink exactly the record it owes:
one `Put` of `RestoreArgs` of the argument list as it stands before `Do` when
the command is a write that passes admission and whose handler reports ok
after `Do`, and no `Put` otherwise; so after any sequence of commands run one
after another the log is what it was, followed by the records of the
successful writes in order. -/
theorem log_is_successful_writes_in_order {W : Type} (g : Globals W) (s : State W)
    (cmds : List (String × List String)) :
    (∀ opt : String,
        (DoCmd g s opt).st.logger_ = s.logger_ ++ (successfulWriteRecord g s opt).toList
          ∧ puts (DoCmd g s opt).trace = (successfulWriteRecord g s opt).toList
          ∧ (∀ r, successfulWriteRecord g s opt = some r →
              r = RestoreArgs (DoCmd g s opt).st.conn.argv_))
      ∧ (DoCmds g s cmds).logger_ = s.logger_ ++ successfulWriteRecords g s cmds := by
  refine ⟨fun opt => DoCmd_log_step g s opt, ?_⟩
  induction cmds generalizing s with
  | nil => simp [DoCmds, successfulWriteRecords]
  | cons cmd rest ih =>
    obtain ⟨opt, argv⟩ := cmd
    simp only [DoCmds, successfulWriteRecords]
    rw [ih, (DoCmd_log_step g _ opt).1, List.append_assoc]

/-- Instance of C1: a successful `set`, a `get` of a missing key, a `set` with
a missing argument and a second successful `set`, run in this order, leave
exactly the two records of the successful writes in the log, in order. -/
theorem log_is_successful_writes_in_order_witness :
    (DoCmds (demoGlobals false "10.0.0.1")
        (demoState "192.168.0.7:40312" StatType.kAdminAuthed [])
        [("set", ["set", "k", "v"]), ("get", ["get", "missing"]), ("set", ["set", "k"]),
         ("set", ["set", "k2", "v2"])]).logger_
      = ["*3\r\n$3\r\nset\r\n$1\r\nk\r\n$1\r\nv\r\n",
         "*3\r\n$3\r\nset\r\n$2\r\nk2\r\n$2\r\nv2\r\n"] :=
  ((log_is_successful_writes_in_order (demoGlobals false "10.0.0.1")
      (demoState "192.168.0.7:40312" StatType.kAdminAuthed [])
      [("set", ["set", "k", "v"]), ("get", ["get", "missing"]), ("set", ["set", "k"]),
       ("set", ["set", "k2", "v2"])]).2).trans (by decide)

/-- C10, the code at the failing input. The server advertises the host
`10.0.0.1`; the peer `110.0.0.1:52311` is neither that host nor loopback, yet
its identity contains the host text at position 1, so the local-only command
`shutdown` passes the check of lines 59-65 and its handler runs. -/
theorem DoCmd_local_check_admits_remote_peer :
    string_find "110.0.0.1:52311" "127.0.0.1" = none
      ∧ string_find "110.0.0.1:52311" "10.0.0.1" = some 1
      ∧ shutdownInfo.is_local = true
      ∧ (DoCmd (demoGlobals false "10.0.0.1")
          (demoState "110.0.0.1:52311" StatType.kAdminAuthed ["shutdown"]) "shutdown").reply
        = "+OK\r\n"
      ∧ (DoCmd (demoGlobals false "10.0.0.1")
          (demoState "110.0.0.1:52311" StatType.kAdminAuthed ["shutdown"]) "shutdown").trace
        = [Event.Initial, Event.rwlock_rdlock, Event.Do, Event.rwlock_unlock] := by
  decide

/-! ## Lock discipline: theorems -/

theorem filter_isSync_of_isLOG (t : List Event) (h : ∀ e ∈ t, e.isLOG = true) :
    t.filter Event.isSync = [] := by
  rw [List.filter_eq_nil_iff]
  intro e he
  have := h e he
  cases e <;> simp_all [Event.isLOG, Event.isSync]

theorem lockStack_append (held : List Lock) (a b : List Event) :
    lockStack held (a ++ b) = (lockStack held a).bind fun held1 => lockStack held1 b := by
  induction a generalizing held with
  | nil => simp [lockStack]
  | cons e a ih =>
    simp only [List.cons_append, lockStack]
    cases e.acquires with
    | some l => exact ih _
    | none =>
      cases e.releases with
      | some l =>
        cases held with
        | nil => simp
        | cons top below =>
          by_cases htop : top = l
          · simp only [htop, if_true]
            exact ih _
          · simp [htop]
      | none => exact ih _

theorem lockStack_of_isLOG (held : List Lock) (t : List Event)
    (h : ∀ e ∈ t, e.isLOG = true) : lockStack held t = some held := by
  induction t with
  | nil => rfl
  | cons e t ih =>
    have he := h e (List.mem_cons_self e t)
    have ht := ih (fun x hx => h x (List.mem_cons_of_mem e hx))
    cases e <;> simp_all [lockStack, Event.isLOG, Event.acquires, Event.releases]

/-- C20. `IsAuthed` is monotone in privilege: what `kNoAuthed` authorizes,
`kLimitAuthed` authorizes, and what `kLimitAuthed` authorizes, `kAdminAuthed`
authorizes, for every AUTH name, blacklist and descriptor; so the transitions
`ChecknUpdate` makes on `USER` from `kNoAuthed` and on `ROOT` from
`kLimitAuthed` or `kNoAuthed` remove no authorization. -/
theorem IsAuthed_monotone (kCmdNameAuth : String) (blacklist : List String)
    (cinfo : CmdInfo) :
    ((AuthStat.IsAuthed kCmdNameAuth blacklist StatType.kNoAuthed cinfo).1 = true →
        (AuthStat.IsAuthed kCmdNameAuth blacklist StatType.kLimitAuthed cinfo).1 = true)
      ∧ ((AuthStat.IsAuthed kCmdNameAuth blacklist StatType.kLimitAuthed cinfo).1 = true →
        (AuthStat.IsAuthed kCmdNameAuth blacklist StatType.kAdminAuthed cinfo).1 = true)
      ∧ ((AuthStat.IsAuthed kCmdNameAuth blacklist StatType.kNoAuthed cinfo).1 = true →
        (AuthStat.IsAuthed kCmdNameAuth blacklist
          (AuthStat.ChecknUpdate StatType.kNoAuthed "USER").2 cinfo).1 = true)
      ∧ ((AuthStat.IsAuthed kCmdNameAuth blacklist StatType.kNoAuthed cinfo).1 = true →
        (AuthStat.IsAuthed kCmdNameAuth blacklist
          (AuthStat.ChecknUpdate StatType.kNoAuthed "ROOT").2 cinfo).1 = true)
      ∧ ((AuthStat.IsAuthed kCmdNameAuth blacklist StatType.kLimitAuthed cinfo).1 = true →
        (AuthStat.IsAuthed kCmdNameAuth blacklist
          (AuthStat.ChecknUpdate StatType.kLimitAuthed "ROOT").2 cinfo).1 = true) := by
  have hUSER : ∀ st, (AuthStat.ChecknUpdate st "USER").2 = StatType.kLimitAuthed := by
    intro st; simp [AuthStat.ChecknUpdate]
  have hROOT : ∀ st, (AuthStat.ChecknUpdate st "ROOT").2 = StatType.kAdminAuthed := by
    intro st; simp [AuthStat.ChecknUpdate]
  rw [hUSER, hROOT, hROOT]
  unfold AuthStat.IsAuthed
  by_cases hn : cinfo.name = kCmdNameAuth <;> simp [hn]

/-- Instance of C20: `get`, authorized for a restricted user under the
blacklist `flushall`, is authorized for an administrator. -/
theorem IsAuthed_monotone_witness :
    (AuthStat.IsAuthed "auth" ["flushall"] StatType.kAdminAuthed getInfo).1 = true :=
  (IsAuthed_monotone "auth" ["flushall"] getInfo).2.1 (by decide)
theorem earlyReturn_none {W : Type} (g : Globals W) (s : State W) (opt : String)
    (cinfo : CmdInfo) (c : Cmd W)
    (hinfo : g.GetCmdInfo opt = some cinfo) (hcmd : g.GetCmd opt = some c)
    (hadm : earlyReturn g s opt = none) :
    (¬ (AuthStat.IsAuthed g.kCmdNameAuth (g.vuser_blacklist s.world)
        s.conn.auth_stat_ cinfo).1 = false)
      ∧ (¬ (cinfo.is_local = true ∧ string_find s.conn.ip_port "127.0.0.1" = none
        ∧ string_find s.conn.ip_port (g.host s.world) = none))
      ∧ (¬ (c.res (c.Initial (argv_for_Initial g s.conn opt) cinfo s.world).2).ok = false)
      ∧ (¬ (cinfo.is_write = true
        ∧ g.readonly (c.Initial (argv_for_Initial g s.conn opt) cinfo s.world).2 = true)) := by
  simp only [earlyReturn, hinfo, hcmd] at hadm
  by_cases hauth : (AuthStat.IsAuthed g.kCmdNameAuth (g.vuser_blacklist s.world)
      s.conn.auth_stat_ cinfo).1 = false
  · rw [if_pos hauth] at hadm; cases hadm
  · rw [if_neg hauth] at hadm
    by_cases hlocal : cinfo.is_local = true ∧ string_find s.conn.ip_port "127.0.0.1" = none
        ∧ string_find s.conn.ip_port (g.host s.world) = none
    · rw [if_pos hlocal] at hadm; cases hadm
    · rw [if_neg hlocal] at hadm
      by_cases hinit :
          (c.res (c.Initial (argv_for_Initial g s.conn opt) cinfo s.world).2).ok = false
      · rw [if_pos hinit] at hadm; cases hadm
      · rw [if_neg hinit] at hadm
        by_cases hro : cinfo.is_write = true
            ∧ g.readonly (c.Initial (argv_for_Initial g s.conn opt) cinfo s.world).2 = true
        · rw [if_pos hro] at hadm; cases hadm
        · exact ⟨hauth, hlocal, hinit, hro⟩

/-- C11. For every run of `DoCmd` that passes admission, the lock events, `Do`
and `Put` occur in this order: key-lock acquire on the second argument (only
for a write with at least two arguments), suspend-lock read acquire (only when
the command is not suspend-class), `Do`, log-gate acquire, `Put`, log-gate
release (only for a write whose handler reports ok), suspend-lock release,
key-lock release on the same key; every release names the innermost lock held,
and no lock is held when the call returns, whatever the handler reports. -/
theorem DoCmd_lock_events_well_nested {W : Type} (g : Globals W) (s : State W)
    (opt : String) (cinfo : CmdInfo) (c : Cmd W)
    (hinfo : g.GetCmdInfo opt = some cinfo) (hcmd : g.GetCmd opt = some c)
    (hadm : earlyReturn g s opt = none) :
    (DoCmd g s opt).trace.filter Event.isSync =
        (if cinfo.is_write = true
            ∧ 2 ≤ (c.Initial (argv_for_Initial g s.conn opt) cinfo s.world).1.length then
          [Event.mutex_record_Lock
            ((c.Initial (argv_for_Initial g s.conn opt) cinfo s.world).1.getD 1 "")]
        else [])
        ++ (if cinfo.is_suspend = false then [Event.rwlock_rdlock] else [])
        ++ [Event.Do]
        ++ (if cinfo.is_write = true ∧ (c.res (c.Do
              (c.Initial (argv_for_Initial g s.conn opt) cinfo s.world).2)).ok = true then
            [Event.logger_Lock,
             Event.logger_Put
               (RestoreArgs (c.Initial (argv_for_Initial g s.conn opt) cinfo s.world).1),
             Event.logger_Unlock]
          else [])
        ++ (if cinfo.is_suspend = false then [Event.rwlock_unlock] else [])
        ++ (if cinfo.is_write = true
            ∧ 2 ≤ (c.Initial (argv_for_Initial g s.conn opt) cinfo s.world).1.length then
          [Event.mutex_record_Unlock
            ((c.Initial (argv_for_Initial g s.conn opt) cinfo s.world).1.getD 1 "")]
        else [])
      ∧ lockStack [] (DoCmd g s opt).trace = some [] := by
  obtain ⟨hauth, hlocal, hinit, hro⟩ := earlyReturn_none g s opt cinfo c hinfo hcmd hadm
  rw [DoCmd_executed g s opt cinfo c hinfo hcmd hauth hlocal hinit hro]
  have hIsF := filter_isSync_of_isLOG _ (IsAuthed_trace_isLOG g.kCmdNameAuth
    (g.vuser_blacklist s.world) s.conn.auth_stat_ cinfo)
  have hIsL : ∀ held, lockStack held (AuthStat.IsAuthed g.kCmdNameAuth
      (g.vuser_blacklist s.world) s.conn.auth_stat_ cinfo).2 = some held :=
    fun held => lockStack_of_isLOG held _ (IsAuthed_trace_isLOG _ _ _ _)
  have hSlF : ∀ (w : W) (start_us : Nat),
      (slowlog g w opt start_us).filter Event.isSync = [] :=
    fun w start_us => filter_isSync_of_isLOG _ (slowlog_isLOG _ _ _ _)
  have hSlL : ∀ (held : List Lock) (w : W) (start_us : Nat),
      lockStack held (slowlog g w opt start_us) = some held :=
    fun held w start_us => lockStack_of_isLOG held _ (slowlog_isLOG _ _ _ _)
  constructor
  · simp only [List.filter_append, hIsF, hSlF, apply_ite (List.filter Event.isSync)]
    cases hw : cinfo.is_write <;> cases hs : cinfo.is_suspend <;>
      cases hok : (c.res (c.Do
        (c.Initial (argv_for_Initial g s.conn opt) cinfo s.world).2)).ok <;>
      by_cases hlen : 2 ≤ (c.Initial (argv_for_Initial g s.conn opt) cinfo s.world).1.length <;>
      simp [hlen, Event.isSync, List.filter_cons]
  · simp only [lockStack_append, hIsL, hSlL, Option.bind]
    cases hw : cinfo.is_write <;> cases hs : cinfo.is_suspend <;>
      cases hok : (c.res (c.Do
        (c.Initial (argv_for_Initial g s.conn opt) cinfo s.world).2)).ok <;>
      by_cases hlen : 2 ≤ (c.Initial (argv_for_Initial g s.conn opt) cinfo s.world).1.length <;>
      by_cases hmon : g.HasMonitorClients s.world = true <;>
      by_cases hau : opt = g.kCmdNameAuth <;>
      simp [hlen, hmon, hau, lockStack, Event.acquires, Event.releases] <;>
      split_ifs <;> simp [lockStack, Event.acquires, Event.releases]
/-- Instance of C11: `set k v` by an administrator takes the key lock on `k`,
the suspend lock and the log gate, and releases them in reverse order; `get`
of a missing key, whose handler fails, takes and releases the suspend lock
only. -/
theorem DoCmd_lock_events_well_nested_witness :
    (DoCmd (demoGlobals false "10.0.0.1")
        (demoState "192.168.0.7:40312" StatType.kAdminAuthed ["set", "k", "v"])
        "set").trace.filter Event.isSync
      = [Event.mutex_record_Lock "k", Event.rwlock_rdlock, Event.Do, Event.logger_Lock,
         Event.logger_Put "*3\r\n$3\r\nset\r\n$1\r\nk\r\n$1\r\nv\r\n", Event.logger_Unlock,
         Event.rwlock_unlock, Event.mutex_record_Unlock "k"]
      ∧ lockStack [] (DoCmd (demoGlobals false "10.0.0.1")
          (demoState "192.168.0.7:40312" StatType.kAdminAuthed ["set", "k", "v"])
          "set").trace = some []
      ∧ (DoCmd (demoGlobals false "10.0.0.1")
          (demoState "192.168.0.7:40312" StatType.kAdminAuthed ["get", "missing"])
          "get").trace.filter Event.isSync
        = [Event.rwlock_rdlock, Event.Do, Event.rwlock_unlock] :=
  ⟨((DoCmd_lock_events_well_nested (demoGlobals false "10.0.0.1")
      (demoState "192.168.0.7:40312" StatType.kAdminAuthed ["set", "k", "v"]) "set"
      setInfo setCmd rfl rfl (by decide)).1).trans (by decide),
   (DoCmd_lock_events_well_nested (demoGlobals false "10.0.0.1")
      (demoState "192.168.0.7:40312" StatType.kAdminAuthed ["set", "k", "v"]) "set"
      setInfo setCmd rfl rfl (by decide)).2,
   ((DoCmd_lock_events_well_nested (demoGlobals false "10.0.0.1")
      (demoState "192.168.0.7:40312" StatType.kAdminAuthed ["get", "missing"]) "get"
      getInfo getCmd rfl rfl (by decide)).1).trans (by decide)⟩

/-! ## Output buffer: auxiliary facts -/

theorem memcpy_eq_some (dst : List Char) (offset : Nat) (src : List Char)
    (h : offset + src.length ≤ dst.length) :
    memcpy dst offset src = some (dst.take offset ++ src ++ dst.drop (offset + src.length)) := by
  unfold memcpy
  rw [if_pos h]

theorem memcpy_length (dst : List Char) (offset : Nat) (src : List Char)
    (h : offset + src.length ≤ dst.length) :
    (dst.take offset ++ src ++ dst.drop (offset + src.length)).length = dst.length := by
  simp only [List.length_append, List.length_take, List.length_drop]
  omega

theorem memcpy_take (dst : List Char) (offset : Nat) (src : List Char)
    (h : offset + src.length ≤ dst.length) :
    (dst.take offset ++ src ++ dst.drop (offset + src.length)).take offset = dst.take offset := by
  have hlen : (dst.take offset).length = offset := by
    rw [List.length_take]; omega
  rw [List.append_assoc, List.take_append_of_le_length (by omega)]
  rw [List.take_of_length_le (by omega)]

theorem memcpy_drop_take (dst : List Char) (offset : Nat) (src : List Char)
    (h : offset + src.length ≤ dst.length) :
    ((dst.take offset ++ src ++ dst.drop (offset + src.length)).drop offset).take src.length
      = src := by
  have hlen : (dst.take offset).length = offset := by
    rw [List.length_take]; omega
  rw [List.append_assoc, List.drop_left' hlen, List.take_left' rfl]

theorem Grown.called_eq_fits (x : Grown) (b1 : Wbuf) (k : Nat)
    (h : x.called = Grown.fits b1 k) : ∃ k0, x = Grown.fits b1 k0 ∧ k = k0 + 1 := by
  cases x with
  | fits b c =>
    simp only [Grown.called, Grown.fits.injEq] at h
    exact ⟨c, by rw [h.1], h.2.symm⟩
  | tooLarge b c => simp [Grown.called] at h
  | outOfFuel => simp [Grown.called] at h

theorem Grown.called_eq_tooLarge (x : Grown) (b1 : Wbuf) (k : Nat)
    (h : x.called = Grown.tooLarge b1 k) : ∃ k0, x = Grown.tooLarge b1 k0 ∧ k = k0 + 1 := by
  cases x with
  | fits b c => simp [Grown.called] at h
  | tooLarge b c =>
    simp only [Grown.called, Grown.tooLarge.injEq] at h
    exact ⟨c, by rw [h.1], h.2.symm⟩
  | outOfFuel => simp [Grown.called] at h

theorem Grown.called_eq_outOfFuel (x : Grown) (h : x.called = Grown.outOfFuel) :
    x = Grown.outOfFuel := by
  cases x <;> simp [Grown.called] at h ⊢

theorem wbuf_loop_fits_now (ExpandWbuf : Wbuf → Option Wbuf) (res_size fuel : Nat) (b : Wbuf)
    (h : res_size < b.wbuf_size_ - b.wbuf_len_) :
    wbuf_loop ExpandWbuf res_size fuel b = Grown.fits b 0 := by
  cases fuel <;> simp only [wbuf_loop] <;> rw [if_neg (by omega)]

theorem wbuf_loop_fits (ExpandWbuf : Wbuf → Option Wbuf) (ceiling : Nat)
    (hE : ExpandWbufSpec ExpandWbuf ceiling) (res_size : Nat) :
    ∀ (fuel : Nat) (b b1 : Wbuf) (k : Nat),
      wbuf_loop ExpandWbuf res_size fuel b = Grown.fits b1 k →
        b.wbuf_size_ ≤ b1.wbuf_size_ ∧ b1.wbuf_len_ = b.wbuf_len_
          ∧ b1.wbuf_.take b.wbuf_size_ = b.wbuf_
          ∧ res_size < b1.wbuf_size_ - b1.wbuf_len_
          ∧ (k = 0 ↔ res_size < b.wbuf_size_ - b.wbuf_len_) := by
  intro fuel
  induction fuel with
  | zero =>
    intro b b1 k h
    simp only [wbuf_loop] at h
    by_cases hc : b.wbuf_size_ - b.wbuf_len_ ≤ res_size
    · rw [if_pos hc] at h
      cases hx : ExpandWbuf b <;> simp [hx] at h
    · rw [if_neg hc] at h
      simp only [Grown.fits.injEq] at h
      obtain ⟨hb, hk⟩ := h
      subst hb
      refine ⟨le_refl _, rfl, ?_, by omega, ?_⟩
      · simp [Wbuf.wbuf_size_]
      · constructor
        · intro _; omega
        · intro _; exact hk.symm
  | succ fuel ih =>
    intro b b1 k h
    simp only [wbuf_loop] at h
    by_cases hc : b.wbuf_size_ - b.wbuf_len_ ≤ res_size
    · rw [if_pos hc] at h
      cases hx : ExpandWbuf b with
      | none => simp [hx] at h
      | some b2 =>
        simp only [hx] at h
        obtain ⟨k0, hk0, hk⟩ := Grown.called_eq_fits _ _ _ h
        obtain ⟨h1, h2, h3, h4, _⟩ := ih b2 b1 k0 hk0
        obtain ⟨hg1, _⟩ := hE.grows b b2 hx
        obtain ⟨hl, _, ht⟩ := hE.keeps b b2 hx
        refine ⟨by omega, by rw [h2, hl], ?_, h4, ?_⟩
        · have : b1.wbuf_.take b.wbuf_size_
              = (b1.wbuf_.take b2.wbuf_size_).take b.wbuf_size_ := by
            rw [List.take_take, Nat.min_eq_left (by omega)]
          rw [this, h3, ht]
        · constructor
          · intro hk'; omega
          · intro hlt; omega
    · rw [if_neg hc] at h
      simp only [Grown.fits.injEq] at h
      obtain ⟨hb, hk⟩ := h
      subst hb
      refine ⟨le_refl _, rfl, ?_, by omega, ?_⟩
      · simp [Wbuf.wbuf_size_]
      · constructor
        · intro _; omega
        · intro _; exact hk.symm

theorem wbuf_loop_tooLarge_calls (ExpandWbuf : Wbuf → Option Wbuf) (res_size : Nat) :
    ∀ (fuel : Nat) (b b1 : Wbuf) (k : Nat),
      wbuf_loop ExpandWbuf res_size fuel b = Grown.tooLarge b1 k →
        1 ≤ k ∧ ExpandWbuf b1 = none ∧ b1.wbuf_size_ - b1.wbuf_len_ ≤ res_size := by
  intro fuel
  induction fuel with
  | zero =>
    intro b b1 k h
    simp only [wbuf_loop] at h
    by_cases hc : b.wbuf_size_ - b.wbuf_len_ ≤ res_size
    · rw [if_pos hc] at h
      cases hx : ExpandWbuf b with
      | none =>
        simp only [hx, Grown.tooLarge.injEq] at h
        obtain ⟨hb, hk⟩ := h
        subst hb
        exact ⟨by omega, hx, hc⟩
      | some b2 => simp [hx] at h
    · rw [if_neg hc] at h
      cases h
  | succ fuel ih =>
    intro b b1 k h
    simp only [wbuf_loop] at h
    by_cases hc : b.wbuf_size_ - b.wbuf_len_ ≤ res_size
    · rw [if_pos hc] at h
      cases hx : ExpandWbuf b with
      | none =>
        simp only [hx, Grown.tooLarge.injEq] at h
        obtain ⟨hb, hk⟩ := h
        subst hb
        exact ⟨by omega, hx, hc⟩
      | some b2 =>
        simp only [hx] at h
        obtain ⟨k0, hk0, hk⟩ := Grown.called_eq_tooLarge _ _ _ h
        obtain ⟨h1, h2, h3⟩ := ih b2 b1 k0 hk0
        exact ⟨by omega, h2, h3⟩
    · rw [if_neg hc] at h
      cases h

theorem wbuf_loop_tooLarge_size (ExpandWbuf : Wbuf → Option Wbuf) (ceiling : Nat)
    (hE : ExpandWbufSpec ExpandWbuf ceiling) (res_size : Nat) :
    ∀ (fuel : Nat) (b b1 : Wbuf) (k : Nat),
      wbuf_loop ExpandWbuf res_size fuel b = Grown.tooLarge b1 k →
        b.wbuf_size_ ≤ b1.wbuf_size_ := by
  intro fuel
  induction fuel with
  | zero =>
    intro b b1 k h
    simp only [wbuf_loop] at h
    by_cases hc : b.wbuf_size_ - b.wbuf_len_ ≤ res_size
    · rw [if_pos hc] at h
      cases hx : ExpandWbuf b with
      | none =>
        simp only [hx, Grown.tooLarge.injEq] at h
        rw [h.1]
      | some b2 => simp [hx] at h
    · rw [if_neg hc] at h
      cases h
  | succ fuel ih =>
    intro b b1 k h
    simp only [wbuf_loop] at h
    by_cases hc : b.wbuf_size_ - b.wbuf_len_ ≤ res_size
    · rw [if_pos hc] at h
      cases hx : ExpandWbuf b with
      | none =>
        simp only [hx, Grown.tooLarge.injEq] at h
        rw [h.1]
      | some b2 =>
        simp only [hx] at h
        obtain ⟨k0, hk0, _⟩ := Grown.called_eq_tooLarge _ _ _ h
        have h1 := ih b2 b1 k0 hk0
        have hg := (hE.grows b b2 hx).1
        omega
    · rw [if_neg hc] at h
      cases h

theorem wbuf_loop_terminates (ExpandWbuf : Wbuf → Option Wbuf) (ceiling : Nat)
    (hE : ExpandWbufSpec ExpandWbuf ceiling) (res_size : Nat) :
    ∀ (fuel : Nat) (b : Wbuf), ceiling ≤ fuel + b.wbuf_size_ →
      wbuf_loop ExpandWbuf res_size fuel b ≠ Grown.outOfFuel := by
  intro fuel
  induction fuel with
  | zero =>
    intro b hf h
    simp only [wbuf_loop] at h
    by_cases hc : b.wbuf_size_ - b.wbuf_len_ ≤ res_size
    · rw [if_pos hc] at h
      cases hx : ExpandWbuf b with
      | none => simp [hx] at h
      | some b2 =>
        have hg := hE.grows b b2 hx
        omega
    · rw [if_neg hc] at h
      cases h
  | succ fuel ih =>
    intro b hf h
    simp only [wbuf_loop] at h
    by_cases hc : b.wbuf_size_ - b.wbuf_len_ ≤ res_size
    · rw [if_pos hc] at h
      cases hx : ExpandWbuf b with
      | none => simp [hx] at h
      | some b2 =>
        simp only [hx] at h
        have hg := hE.grows b b2 hx
        exact ih b2 (by omega) (Grown.called_eq_outOfFuel _ h)
    · rw [if_neg hc] at h
      cases h

theorem demoExpandWbuf_spec (ceiling : Nat) : ExpandWbufSpec (demoExpandWbuf ceiling) ceiling := by
  constructor
  · intro b b1 h
    unfold demoExpandWbuf at h
    split_ifs at h with hc
    simp only [Option.some.injEq] at h
    subst h
    simp only [Wbuf.wbuf_size_, List.length_append, List.length_replicate] at hc ⊢
    omega
  · intro b b1 h
    unfold demoExpandWbuf at h
    split_ifs at h with hc
    simp only [Option.some.injEq] at h
    subst h
    simp [Wbuf.wbuf_size_]
/-! ## The three paths of `DealMessage` -/

theorem DealMessage_of_tooLarge {W : Type} (g : Globals W) (ExpandWbuf : Wbuf → Option Wbuf)
    (fuel : Nat) (s : State W) (b : Wbuf) (argv0 : String) (rest : List String)
    (b1 : Wbuf) (k : Nat) (hargv : s.conn.argv_ = argv0 :: rest)
    (hloop : wbuf_loop ExpandWbuf (DoCmd g s (StringToLower argv0)).reply.length fuel b
      = Grown.tooLarge b1 k)
    (hsize : 23 ≤ b1.wbuf_size_) :
    DealMessage g ExpandWbuf fuel s b =
      Except.ok
        { ret := 0
          st := (DoCmd g s (StringToLower argv0)).st
          buf := { wbuf_ := "-ERR buf is too large\r\n".data ++ b1.wbuf_.drop 23
                   wbuf_len_ := 23, is_reply := true }
          calls := [MsgEvent.PlusThreadQuerynum, MsgEvent.DoCmd (StringToLower argv0)]
            ++ List.replicate k MsgEvent.ExpandWbuf
            ++ [MsgEvent.LOG Severity.WARNING "wbuf is too large",
                MsgEvent.set_is_reply true]
          trace := (DoCmd g s (StringToLower argv0)).trace } := by
  have hcanned : "-ERR buf is too large\r\n".data.take 23 = "-ERR buf is too large\r\n".data := by
    decide
  have hlen : "-ERR buf is too large\r\n".data.length = 23 := by decide
  have hcopy := memcpy_eq_some b1.wbuf_ 0 "-ERR buf is too large\r\n".data
    (by rw [hlen]; simpa [Wbuf.wbuf_size_] using hsize)
  rw [hlen] at hcopy
  unfold DealMessage
  simp only [hargv, hloop]
  rw [hcanned, hcopy]
  simp only [List.take_zero, List.nil_append, Nat.zero_add]

theorem DealMessage_of_fits {W : Type} (g : Globals W) (ExpandWbuf : Wbuf → Option Wbuf)
    (fuel : Nat) (s : State W) (b : Wbuf) (argv0 : String) (rest : List String)
    (b1 : Wbuf) (k : Nat) (hargv : s.conn.argv_ = argv0 :: rest)
    (hloop : wbuf_loop ExpandWbuf (DoCmd g s (StringToLower argv0)).reply.length fuel b
      = Grown.fits b1 k)
    (hroom : b1.wbuf_len_ + (DoCmd g s (StringToLower argv0)).reply.length ≤ b1.wbuf_size_) :
    DealMessage g ExpandWbuf fuel s b =
      Except.ok
        { ret := 0
          st := (DoCmd g s (StringToLower argv0)).st
          buf :=
            { wbuf_ := b1.wbuf_.take b1.wbuf_len_
                ++ (DoCmd g s (StringToLower argv0)).reply.data
                ++ b1.wbuf_.drop
                    (b1.wbuf_len_ + (DoCmd g s (StringToLower argv0)).reply.data.length)
              wbuf_len_ := b1.wbuf_len_ + (DoCmd g s (StringToLower argv0)).reply.length
              is_reply := true }
          calls := [MsgEvent.PlusThreadQuerynum, MsgEvent.DoCmd (StringToLower argv0)]
            ++ List.replicate k MsgEvent.ExpandWbuf
            ++ [MsgEvent.set_is_reply true]
          trace := (DoCmd g s (StringToLower argv0)).trace } := by
  have hcopy := memcpy_eq_some b1.wbuf_ b1.wbuf_len_
    (DoCmd g s (StringToLower argv0)).reply.data
    hroom
  unfold DealMessage
  simp only [hargv, hloop, hcopy]
theorem wbuf_loop_fits_calls (ExpandWbuf : Wbuf → Option Wbuf) (res_size fuel : Nat)
    (b b1 : Wbuf) (k : Nat) (h : wbuf_loop ExpandWbuf res_size fuel b = Grown.fits b1 k)
    (htight : b.wbuf_size_ - b.wbuf_len_ ≤ res_size) : 1 ≤ k := by
  cases fuel with
  | zero =>
    simp only [wbuf_loop] at h
    rw [if_pos htight] at h
    cases hx : ExpandWbuf b <;> simp [hx] at h
  | succ fuel =>
    simp only [wbuf_loop] at h
    rw [if_pos htight] at h
    cases hx : ExpandWbuf b with
    | none => simp [hx] at h
    | some b2 =>
      simp only [hx] at h
      obtain ⟨k0, _, hk⟩ := Grown.called_eq_fits _ _ _ h
      omega

/-! ## Output buffer and `DealMessage`: theorems -/

/-- C12. When the loop of `DealMessage` ends because `ExpandWbuf` returns
false, on a buffer of at least 23 bytes, `DealMessage` returns 0 with the
buffer holding exactly the 23 bytes `-ERR buf is too large\r\n`, the length 23
and the reply flag set, whatever the intended reply and whatever was buffered
before. -/
theorem DealMessage_buffer_too_large {W : Type} (g : Globals W)
    (ExpandWbuf : Wbuf → Option Wbuf) (ceiling fuel : Nat) (s : State W) (b : Wbuf)
    (argv0 : String) (rest : List String) (b1 : Wbuf) (k : Nat)
    (hE : ExpandWbufSpec ExpandWbuf ceiling)
    (hargv : s.conn.argv_ = argv0 :: rest)
    (_hinv : b.wbuf_len_ ≤ b.wbuf_size_)
    (hsize : 23 ≤ b.wbuf_size_)
    (hloop : wbuf_loop ExpandWbuf (DoCmd g s (StringToLower argv0)).reply.length fuel b
      = Grown.tooLarge b1 k) :
    ∃ out, DealMessage g ExpandWbuf fuel s b = Except.ok out
      ∧ out.ret = 0
      ∧ out.buf.wbuf_len_ = 23
      ∧ out.buf.wbuf_.take 23 = "-ERR buf is too large\r\n".data
      ∧ "-ERR buf is too large\r\n".length = 23
      ∧ out.buf.is_reply = true
      ∧ out.buf.wbuf_len_ ≤ out.buf.wbuf_size_ := by
  have hsize1 : 23 ≤ b1.wbuf_size_ :=
    le_trans hsize (wbuf_loop_tooLarge_size ExpandWbuf ceiling hE _ fuel b b1 k hloop)
  have hlen : "-ERR buf is too large\r\n".data.length = 23 := by decide
  refine ⟨_, DealMessage_of_tooLarge g ExpandWbuf fuel s b argv0 rest b1 k hargv hloop hsize1,
    rfl, rfl, ?_, by decide, rfl, ?_⟩
  · exact List.take_left' hlen
  · have hb1 : 23 ≤ b1.wbuf_.length := hsize1
    simp only [Wbuf.wbuf_size_, List.length_append, List.length_drop, hlen]
    omega

/-- Instance of C12: 30 bytes are buffered in an allocation of 32 bytes that
may not grow; the reply to `set k v` is replaced by the 23-byte error. -/
theorem DealMessage_buffer_too_large_witness :
    ∃ out, DealMessage (demoGlobals false "10.0.0.1") (demoExpandWbuf 32) 32
        (demoState "192.168.0.7:40312" StatType.kAdminAuthed ["set", "k", "v"])
        (demoWbuf 32 "+OK\r\n+OK\r\n+OK\r\n+OK\r\n+OK\r\n+OK\r\n") = Except.ok out
      ∧ out.ret = 0
      ∧ out.buf.wbuf_len_ = 23
      ∧ out.buf.wbuf_.take 23 = "-ERR buf is too large\r\n".data
      ∧ "-ERR buf is too large\r\n".length = 23
      ∧ out.buf.is_reply = true
      ∧ out.buf.wbuf_len_ ≤ out.buf.wbuf_size_ :=
  DealMessage_buffer_too_large (demoGlobals false "10.0.0.1") (demoExpandWbuf 32) 32 32
    (demoState "192.168.0.7:40312" StatType.kAdminAuthed ["set", "k", "v"])
    (demoWbuf 32 "+OK\r\n+OK\r\n+OK\r\n+OK\r\n+OK\r\n+OK\r\n") "set" ["k", "v"]
    (demoWbuf 32 "+OK\r\n+OK\r\n+OK\r\n+OK\r\n+OK\r\n+OK\r\n") 1
    (demoExpandWbuf_spec 32) rfl (by decide) (by decide) (by decide)

/-- C19. On the append path of `DealMessage` (the loop ends with the reply
fitting), from a buffer with `wbuf_len_ ≤ wbuf_size_`: the copy stays inside
the allocation, the bytes at positions below the old length are unchanged,
the reply occupies the positions from the old length on, and the new length
is the old length plus the reply size and is strictly less than
`wbuf_size_`. -/
theorem DealMessage_append_in_bounds {W : Type} (g : Globals W)
    (ExpandWbuf : Wbuf → Option Wbuf) (ceiling fuel : Nat) (s : State W) (b : Wbuf)
    (argv0 : String) (rest : List String) (b1 : Wbuf) (k : Nat)
    (hE : ExpandWbufSpec ExpandWbuf ceiling)
    (hargv : s.conn.argv_ = argv0 :: rest)
    (hinv : b.wbuf_len_ ≤ b.wbuf_size_)
    (hloop : wbuf_loop ExpandWbuf (DoCmd g s (StringToLower argv0)).reply.length fuel b
      = Grown.fits b1 k) :
    ∃ out, DealMessage g ExpandWbuf fuel s b = Except.ok out
      ∧ out.ret = 0
      ∧ out.buf.wbuf_.take b.wbuf_len_ = b.wbuf_.take b.wbuf_len_
      ∧ (out.buf.wbuf_.drop b.wbuf_len_).take (DoCmd g s (StringToLower argv0)).reply.length
          = (DoCmd g s (StringToLower argv0)).reply.data
      ∧ out.buf.wbuf_len_ = b.wbuf_len_ + (DoCmd g s (StringToLower argv0)).reply.length
      ∧ out.buf.wbuf_len_ < out.buf.wbuf_size_
      ∧ out.buf.is_reply = true := by
  obtain ⟨_, hl, ht, hfit, _⟩ := wbuf_loop_fits ExpandWbuf ceiling hE _ fuel b b1 k hloop
  have hroom : b1.wbuf_len_ + (DoCmd g s (StringToLower argv0)).reply.length
      ≤ b1.wbuf_size_ := by omega
  have hroom2 : b1.wbuf_len_ + (DoCmd g s (StringToLower argv0)).reply.data.length
      ≤ b1.wbuf_.length := hroom
  refine ⟨_, DealMessage_of_fits g ExpandWbuf fuel s b argv0 rest b1 k hargv hloop hroom,
    rfl, ?_, ?_, ?_, ?_, rfl⟩
  · show (b1.wbuf_.take b1.wbuf_len_ ++ (DoCmd g s (StringToLower argv0)).reply.data
        ++ b1.wbuf_.drop
            (b1.wbuf_len_ + (DoCmd g s (StringToLower argv0)).reply.data.length)).take
          b.wbuf_len_ = b.wbuf_.take b.wbuf_len_
    rw [← hl, memcpy_take _ _ _ hroom2, hl]
    have : b1.wbuf_.take b.wbuf_len_ = (b1.wbuf_.take b.wbuf_size_).take b.wbuf_len_ := by
      rw [List.take_take, Nat.min_eq_left hinv]
    rw [this, ht]
  · show ((b1.wbuf_.take b1.wbuf_len_ ++ (DoCmd g s (StringToLower argv0)).reply.data
        ++ b1.wbuf_.drop
            (b1.wbuf_len_ + (DoCmd g s (StringToLower argv0)).reply.data.length)).drop
          b.wbuf_len_).take (DoCmd g s (StringToLower argv0)).reply.data.length
        = (DoCmd g s (StringToLower argv0)).reply.data
    rw [← hl, memcpy_drop_take _ _ _ hroom2]
  · show b1.wbuf_len_ + (DoCmd g s (StringToLower argv0)).reply.length
        = b.wbuf_len_ + (DoCmd g s (StringToLower argv0)).reply.length
    rw [hl]
  · show b1.wbuf_len_ + (DoCmd g s (StringToLower argv0)).reply.length
        < (b1.wbuf_.take b1.wbuf_len_ ++ (DoCmd g s (StringToLower argv0)).reply.data
          ++ b1.wbuf_.drop
              (b1.wbuf_len_ + (DoCmd g s (StringToLower argv0)).reply.data.length)).length
    rw [memcpy_length _ _ _ hroom2]
    have : b1.wbuf_size_ = b1.wbuf_.length := rfl
    omega

/-- Instance of C19: the reply to `set k v` (5 bytes) is appended after the 5
bytes buffered in an allocation of 32 bytes. -/
theorem DealMessage_append_in_bounds_witness :
    ∃ out, DealMessage (demoGlobals false "10.0.0.1") (demoExpandWbuf 32) 32
        (demoState "192.168.0.7:40312" StatType.kAdminAuthed ["set", "k", "v"])
        (demoWbuf 32 "+OK\r\n") = Except.ok out
      ∧ out.ret = 0
      ∧ out.buf.wbuf_.take 5 = "+OK\r\n".data
      ∧ (out.buf.wbuf_.drop 5).take 5 = "+OK\r\n".data
      ∧ out.buf.wbuf_len_ = 10
      ∧ out.buf.wbuf_len_ < out.buf.wbuf_size_
      ∧ out.buf.is_reply = true :=
  DealMessage_append_in_bounds (demoGlobals false "10.0.0.1") (demoExpandWbuf 32) 32 32
    (demoState "192.168.0.7:40312" StatType.kAdminAuthed ["set", "k", "v"])
    (demoWbuf 32 "+OK\r\n") "set" ["k", "v"] (demoWbuf 32 "+OK\r\n") 0
    (demoExpandWbuf_spec 32) rfl (by decide) (by decide)
/-- C18, as the claim states it, fails when the reply fits exactly: 27 bytes
are buffered in an allocation of 32 bytes that may not grow, and the reply to
`set k v` has the 5 bytes that remain; `DealMessage` calls `ExpandWbuf` all
the same and replaces the reply by the 23-byte error. -/
theorem DealMessage_exact_fit_calls_ExpandWbuf :
    (demoWbuf 32 "+PONG\r\n+OK\r\n+OK\r\n+OK\r\n+OK\r\n").wbuf_size_
        - (demoWbuf 32 "+PONG\r\n+OK\r\n+OK\r\n+OK\r\n+OK\r\n").wbuf_len_ = 5
      ∧ (DoCmd (demoGlobals false "10.0.0.1")
          (demoState "192.168.0.7:40312" StatType.kAdminAuthed ["set", "k", "v"])
          (StringToLower "set")).reply.length = 5
      ∧ ∃ out, DealMessage (demoGlobals false "10.0.0.1") (demoExpandWbuf 32) 32
          (demoState "192.168.0.7:40312" StatType.kAdminAuthed ["set", "k", "v"])
          (demoWbuf 32 "+PONG\r\n+OK\r\n+OK\r\n+OK\r\n+OK\r\n") = Except.ok out
        ∧ MsgEvent.ExpandWbuf ∈ out.calls
        ∧ out.buf.wbuf_len_ = 23
        ∧ out.buf.wbuf_.take 23 = "-ERR buf is too large\r\n".data :=
  ⟨by decide, by decide, _, rfl, by decide, rfl, by decide⟩

theorem wbuf_loop_fail_now (ExpandWbuf : Wbuf → Option Wbuf) (res_size fuel : Nat) (b : Wbuf)
    (htight : b.wbuf_size_ - b.wbuf_len_ ≤ res_size) (hfail : ExpandWbuf b = none) :
    wbuf_loop ExpandWbuf res_size fuel b = Grown.tooLarge b 1 := by
  cases fuel <;> simp only [wbuf_loop] <;> rw [if_pos htight] <;> simp only [hfail]

/-- C18, amended. `DealMessage` grows the output buffer unless the remaining
capacity `wbuf_size_ - wbuf_len_` is strictly greater than the reply size.
When it is strictly greater, `ExpandWbuf` is not called and the reply is
appended to the buffered bytes. When it is less than or equal to the reply
size, the exact fit included, `DealMessage` returns 0 having called
`ExpandWbuf`: either the calls made room and the reply is appended, or a call
returned false and the buffer holds the 23-byte error instead of the reply; so
it is when the first call returns false. -/
theorem DealMessage_grows_unless_strictly_fits {W : Type} (g : Globals W)
    (ExpandWbuf : Wbuf → Option Wbuf) (fuel : Nat) (s : State W) (b : Wbuf)
    (argv0 : String) (rest : List String)
    (hargv : s.conn.argv_ = argv0 :: rest)
    (hinv : b.wbuf_len_ ≤ b.wbuf_size_) :
    ((DoCmd g s (StringToLower argv0)).reply.length < b.wbuf_size_ - b.wbuf_len_ →
        ∃ out, DealMessage g ExpandWbuf fuel s b = Except.ok out
          ∧ MsgEvent.ExpandWbuf ∉ out.calls
          ∧ out.ret = 0
          ∧ out.buf =
            { wbuf_ := b.wbuf_.take b.wbuf_len_
                ++ (DoCmd g s (StringToLower argv0)).reply.data
                ++ b.wbuf_.drop
                    (b.wbuf_len_ + (DoCmd g s (StringToLower argv0)).reply.length)
              wbuf_len_ := b.wbuf_len_ + (DoCmd g s (StringToLower argv0)).reply.length
              is_reply := true })
      ∧ (∀ ceiling : Nat, ExpandWbufSpec ExpandWbuf ceiling → ceiling ≤ fuel →
          23 ≤ b.wbuf_size_ →
          b.wbuf_size_ - b.wbuf_len_ ≤ (DoCmd g s (StringToLower argv0)).reply.length →
            ∃ out, DealMessage g ExpandWbuf fuel s b = Except.ok out
              ∧ MsgEvent.ExpandWbuf ∈ out.calls
              ∧ out.ret = 0
              ∧ out.buf.is_reply = true
              ∧ ((out.buf.wbuf_len_ = b.wbuf_len_
                      + (DoCmd g s (StringToLower argv0)).reply.length
                    ∧ out.buf.wbuf_.take b.wbuf_len_ = b.wbuf_.take b.wbuf_len_
                    ∧ (out.buf.wbuf_.drop b.wbuf_len_).take
                        (DoCmd g s (StringToLower argv0)).reply.length
                      = (DoCmd g s (StringToLower argv0)).reply.data
                    ∧ MsgEvent.LOG Severity.WARNING "wbuf is too large" ∉ out.calls)
                  ∨ (out.buf.wbuf_len_ = 23
                    ∧ out.buf.wbuf_.take 23 = "-ERR buf is too large\r\n".data
                    ∧ MsgEvent.LOG Severity.WARNING "wbuf is too large" ∈ out.calls))
              ∧ (ExpandWbuf b = none →
                  out.buf.wbuf_len_ = 23
                    ∧ out.buf.wbuf_.take 23 = "-ERR buf is too large\r\n".data)) := by
  constructor
  · intro hroom
    have hloop := wbuf_loop_fits_now ExpandWbuf
      (DoCmd g s (StringToLower argv0)).reply.length fuel b hroom
    refine ⟨_, DealMessage_of_fits g ExpandWbuf fuel s b argv0 rest b 0 hargv hloop
      (by omega), ?_, rfl, rfl⟩
    simp
  · intro ceiling hE hfuel hsize htight
    have hlen : "-ERR buf is too large\r\n".data.length = 23 := by decide
    have hterm := wbuf_loop_terminates ExpandWbuf ceiling hE
      (DoCmd g s (StringToLower argv0)).reply.length fuel b (by omega)
    cases hloop : wbuf_loop ExpandWbuf (DoCmd g s (StringToLower argv0)).reply.length fuel b with
    | outOfFuel => exact absurd hloop hterm
    | tooLarge b1 k =>
      have hk := (wbuf_loop_tooLarge_calls ExpandWbuf _ fuel b b1 k hloop).1
      have hsize1 : 23 ≤ b1.wbuf_size_ :=
        le_trans hsize (wbuf_loop_tooLarge_size ExpandWbuf ceiling hE _ fuel b b1 k hloop)
      refine ⟨_, DealMessage_of_tooLarge g ExpandWbuf fuel s b argv0 rest b1 k hargv hloop
        hsize1, ?_, rfl, rfl, Or.inr ⟨rfl, List.take_left' hlen, ?_⟩,
        fun _ => ⟨rfl, List.take_left' hlen⟩⟩
      · simp only [List.mem_append, List.mem_replicate]
        exact Or.inl (Or.inr ⟨by omega, trivial⟩)
      · simp
    | fits b1 k =>
      have hk := wbuf_loop_fits_calls ExpandWbuf _ fuel b b1 k hloop htight
      obtain ⟨_, hl, ht, hfit, _⟩ := wbuf_loop_fits ExpandWbuf ceiling hE _ fuel b b1 k hloop
      have hroom : b1.wbuf_len_ + (DoCmd g s (StringToLower argv0)).reply.length
          ≤ b1.wbuf_size_ := by omega
      have hroom2 : b1.wbuf_len_ + (DoCmd g s (StringToLower argv0)).reply.data.length
          ≤ b1.wbuf_.length := hroom
      refine ⟨_, DealMessage_of_fits g ExpandWbuf fuel s b argv0 rest b1 k hargv hloop hroom,
        ?_, rfl, rfl, Or.inl ⟨?_, ?_, ?_, ?_⟩, ?_⟩
      · simp only [List.mem_append, List.mem_replicate]
        exact Or.inl (Or.inr ⟨by omega, trivial⟩)
      · show b1.wbuf_len_ + (DoCmd g s (StringToLower argv0)).reply.length
            = b.wbuf_len_ + (DoCmd g s (StringToLower argv0)).reply.length
        rw [hl]
      · show (b1.wbuf_.take b1.wbuf_len_ ++ (DoCmd g s (StringToLower argv0)).reply.data
            ++ b1.wbuf_.drop
                (b1.wbuf_len_ + (DoCmd g s (StringToLower argv0)).reply.data.length)).take
              b.wbuf_len_ = b.wbuf_.take b.wbuf_len_
        rw [← hl, memcpy_take _ _ _ hroom2, hl]
        have : b1.wbuf_.take b.wbuf_len_ = (b1.wbuf_.take b.wbuf_size_).take b.wbuf_len_ := by
          rw [List.take_take, Nat.min_eq_left hinv]
        rw [this, ht]
      · show ((b1.wbuf_.take b1.wbuf_len_ ++ (DoCmd g s (StringToLower argv0)).reply.data
            ++ b1.wbuf_.drop
                (b1.wbuf_len_ + (DoCmd g s (StringToLower argv0)).reply.data.length)).drop
              b.wbuf_len_).take (DoCmd g s (StringToLower argv0)).reply.data.length
            = (DoCmd g s (StringToLower argv0)).reply.data
        rw [← hl, memcpy_drop_take _ _ _ hroom2]
      · simp only [List.mem_append, List.mem_replicate]
        simp
      · intro hfail
        rw [wbuf_loop_fail_now ExpandWbuf _ fuel b htight hfail] at hloop
        cases hloop

/-- Instance of the amended C18: with 5 bytes buffered in an allocation of 32
bytes the 5-byte reply to `set k v` is appended and `ExpandWbuf` is not
called; with 27 bytes buffered in an allocation of 32 bytes that may grow to
64, the same reply fits exactly, `ExpandWbuf` is called and the run returns
0. -/
theorem DealMessage_grows_unless_strictly_fits_witness :
    (∃ out, DealMessage (demoGlobals false "10.0.0.1") (demoExpandWbuf 32) 32
        (demoState "192.168.0.7:40312" StatType.kAdminAuthed ["set", "k", "v"])
        (demoWbuf 32 "+OK\r\n") = Except.ok out
      ∧ MsgEvent.ExpandWbuf ∉ out.calls
      ∧ out.ret = 0
      ∧ out.buf.wbuf_len_ = 10)
    ∧ (∃ out, DealMessage (demoGlobals false "10.0.0.1") (demoExpandWbuf 64) 64
        (demoState "192.168.0.7:40312" StatType.kAdminAuthed ["set", "k", "v"])
        (demoWbuf 32 "+PONG\r\n+OK\r\n+OK\r\n+OK\r\n+OK\r\n") = Except.ok out
      ∧ MsgEvent.ExpandWbuf ∈ out.calls
      ∧ out.ret = 0) :=
  ⟨match (DealMessage_grows_unless_strictly_fits (demoGlobals false "10.0.0.1")
      (demoExpandWbuf 32) 32
      (demoState "192.168.0.7:40312" StatType.kAdminAuthed ["set", "k", "v"])
      (demoWbuf 32 "+OK\r\n") "set" ["k", "v"] rfl (by decide)).1 (by decide) with
    | ⟨out, h1, h2, h3, h4⟩ => ⟨out, h1, h2, h3, by rw [h4]; decide⟩,
   match (DealMessage_grows_unless_strictly_fits (demoGlobals false "10.0.0.1")
      (demoExpandWbuf 64) 64
      (demoState "192.168.0.7:40312" StatType.kAdminAuthed ["set", "k", "v"])
      (demoWbuf 32 "+PONG\r\n+OK\r\n+OK\r\n+OK\r\n+OK\r\n") "set" ["k", "v"] rfl
      (by decide)).2 64 (demoExpandWbuf_spec 64) (by decide) (by decide) (by decide) with
    | ⟨out, h1, h2, h3, _⟩ => ⟨out, h1, h2, h3⟩⟩

/-! ## Command names: theorems -/

theorem DoCmd_reply_of_earlyReturn {W : Type} (g : Globals W) (s : State W) (opt : String) :
    (earlyReturn g s opt = some EarlyReturn.unknownCommand →
        (DoCmd g s opt).reply = "-Err unknown or unsupported command '" ++ opt ++ "'\r\n")
      ∧ (earlyReturn g s opt = some EarlyReturn.authRequired →
        (DoCmd g s opt).reply = "-ERR NOAUTH Authentication required.\r\n")
      ∧ (earlyReturn g s opt = some EarlyReturn.localOnlyViolation →
        (DoCmd g s opt).reply = "-ERR 'shutdown' should be localhost\r\n")
      ∧ (earlyReturn g s opt = some EarlyReturn.readOnlyServer →
        (DoCmd g s opt).reply = "-ERR Server in read-only\r\n") := by
  cases hinfo : g.GetCmdInfo opt with
  | none =>
    have hlabel : earlyReturn g s opt = some EarlyReturn.unknownCommand := by
      simp [earlyReturn, hinfo]
    rw [DoCmd_unknown g s opt (Or.inl hinfo), hlabel]
    simp
  | some cinfo =>
    cases hcmd : g.GetCmd opt with
    | none =>
      have hlabel : earlyReturn g s opt = some EarlyReturn.unknownCommand := by
        simp [earlyReturn, hinfo, hcmd]
      rw [DoCmd_unknown g s opt (Or.inr hcmd), hlabel]
      simp
    | some c =>
      by_cases hauth : (AuthStat.IsAuthed g.kCmdNameAuth (g.vuser_blacklist s.world)
          s.conn.auth_stat_ cinfo).1 = false
      · have hlabel : earlyReturn g s opt = some EarlyReturn.authRequired := by
          simp only [earlyReturn, hinfo, hcmd, if_pos hauth]
        rw [DoCmd_authRequired g s opt cinfo c hinfo hcmd hauth, hlabel]
        simp
      · by_cases hlocal : cinfo.is_local = true ∧ string_find s.conn.ip_port "127.0.0.1" = none
            ∧ string_find s.conn.ip_port (g.host s.world) = none
        · have hlabel : earlyReturn g s opt = some EarlyReturn.localOnlyViolation := by
            simp only [earlyReturn, hinfo, hcmd, if_neg hauth, if_pos hlocal]
          rw [DoCmd_localOnlyViolation g s opt cinfo c hinfo hcmd hauth hlocal, hlabel]
          simp
        · by_cases hinit :
              (c.res (c.Initial (argv_for_Initial g s.conn opt) cinfo s.world).2).ok = false
          · have hlabel : earlyReturn g s opt = some EarlyReturn.initialFailure := by
              simp only [earlyReturn, hinfo, hcmd, if_neg hauth, if_neg hlocal, if_pos hinit]
            rw [hlabel]
            simp
          · by_cases hro : cinfo.is_write = true
                ∧ g.readonly (c.Initial (argv_for_Initial g s.conn opt) cinfo s.world).2 = true
            · have hlabel : earlyReturn g s opt = some EarlyReturn.readOnlyServer := by
                simp only [earlyReturn, hinfo, hcmd, if_neg hauth, if_neg hlocal, if_neg hinit,
                  if_pos hro]
              rw [DoCmd_readOnlyServer g s opt cinfo c hinfo hcmd hauth hlocal hinit hro,
                hlabel]
              simp
            · have hlabel : earlyReturn g s opt = none := by
                simp only [earlyReturn, hinfo, hcmd, if_neg hauth, if_neg hlocal, if_neg hinit,
                  if_neg hro]
              rw [hlabel]
              simp

theorem noCRLF_append (a b : List Char) : noCRLF (a ++ b) = (noCRLF a && noCRLF b) := by
  simp [noCRLF, List.all_append]

theorem isErrorLine_unknown (opt : String) :
    isErrorLine ("-Err unknown or unsupported command '" ++ opt ++ "'\r\n")
      = noCRLF opt.data := by
  have hpre : "-Err unknown or unsupported command '".data
      = '-' :: "Err unknown or unsupported command '".data := by decide
  have hpreN : noCRLF "Err unknown or unsupported command '".data = true := by decide
  have hsuf : "'\r\n".data = [Char.ofNat 39] ++ ['\r', '\n'] := by decide
  have hdata : ("-Err unknown or unsupported command '" ++ opt ++ "'\r\n").data
      = ('-' :: ("Err unknown or unsupported command '".data ++ opt.data ++ [Char.ofNat 39]))
        ++ ['\r', '\n'] := by
    rw [String.data_append, String.data_append, hpre, hsuf]
    simp
  unfold isErrorLine
  rw [hdata]
  have hlen : (('-' :: ("Err unknown or unsupported command '".data ++ opt.data
      ++ [Char.ofNat 39])) ++ ['\r', '\n']).length - 2
      = ('-' :: ("Err unknown or unsupported command '".data ++ opt.data
        ++ [Char.ofNat 39])).length := by
    simp
  rw [hlen, List.drop_left, List.take_left]
  have hq : noCRLF [Char.ofNat 39] = true := by decide
  have hbody : noCRLF ('-' :: ("Err unknown or unsupported command '".data ++ opt.data
      ++ [Char.ofNat 39])) = noCRLF opt.data := by
    have : ('-' :: ("Err unknown or unsupported command '".data ++ opt.data
        ++ [Char.ofNat 39]))
        = ['-'] ++ "Err unknown or unsupported command '".data ++ opt.data
          ++ [Char.ofNat 39] := by simp
    rw [this, noCRLF_append, noCRLF_append, noCRLF_append, hpreN, hq]
    have h0 : noCRLF ['-'] = true := by decide
    rw [h0]
    simp
  rw [hbody]
  simp

/-- C15, the code at the failing input. The client submits the one argument
`get`, CR, LF, `+OK`. Line 44 copies the (lowercased) name into the
unknown-command reply as it is, so the reply `DoCmd` returns and `DealMessage`
buffers holds a CR and an LF before its end and is not one error line: on the
wire it reads as an error line followed by a second line `+ok'`. -/
theorem DoCmd_unknown_reply_embeds_CRLF :
    earlyReturn (demoGlobals false "10.0.0.1")
        (demoState "192.168.0.7:40312" StatType.kAdminAuthed ["get\r\n+OK"])
        (StringToLower "get\r\n+OK") = some EarlyReturn.unknownCommand
      ∧ (DoCmd (demoGlobals false "10.0.0.1")
          (demoState "192.168.0.7:40312" StatType.kAdminAuthed ["get\r\n+OK"])
          (StringToLower "get\r\n+OK")).reply
        = "-Err unknown or unsupported command 'get\r\n+ok'\r\n"
      ∧ isErrorLine (DoCmd (demoGlobals false "10.0.0.1")
          (demoState "192.168.0.7:40312" StatType.kAdminAuthed ["get\r\n+OK"])
          (StringToLower "get\r\n+OK")).reply = false
      ∧ ∃ out, DealMessage (demoGlobals false "10.0.0.1") (demoExpandWbuf 64) 64
          (demoState "192.168.0.7:40312" StatType.kNoAuthed ["get\r\n+OK"])
          (demoWbuf 64 "") = Except.ok out
        ∧ out.ret = 0
        ∧ out.buf.wbuf_.take out.buf.wbuf_len_
          = "-Err unknown or unsupported command 'get\r\n+ok'\r\n".data :=
  ⟨by decide, by decide, by decide, _, rfl, rfl, by decide⟩

/-- What holds of the error replies `DoCmd` builds itself: the NOAUTH,
local-only and read-only replies are one error line for every submitted name,
and the unknown-command reply is one error line exactly when the submitted
name holds no CR or LF byte. -/
theorem DoCmd_error_replies_by_name {W : Type} (g : Globals W) (s : State W)
    (opt : String) :
    (earlyReturn g s opt = some EarlyReturn.unknownCommand →
        isErrorLine (DoCmd g s opt).reply = noCRLF opt.data)
      ∧ (earlyReturn g s opt = some EarlyReturn.authRequired →
        isErrorLine (DoCmd g s opt).reply = true)
      ∧ (earlyReturn g s opt = some EarlyReturn.localOnlyViolation →
        isErrorLine (DoCmd g s opt).reply = true)
      ∧ (earlyReturn g s opt = some EarlyReturn.readOnlyServer →
        isErrorLine (DoCmd g s opt).reply = true) := by
  obtain ⟨h1, h2, h3, h4⟩ := DoCmd_reply_of_earlyReturn g s opt
  refine ⟨?_, ?_, ?_, ?_⟩
  · intro h
    rw [h1 h, isErrorLine_unknown]
  · intro h
    rw [h2 h]
    decide
  · intro h
    rw [h3 h]
    decide
  · intro h
    rw [h4 h]
    decide

/-! ## Wire form: theorems -/

theorem digitChar_toNat (k : Nat) (hk : k < 10) : (Nat.digitChar k).toNat - 48 = k := by
  interval_cases k <;> rfl

theorem digitChar_isDigit (k : Nat) (hk : k < 10) : (Nat.digitChar k).isDigit = true := by
  interval_cases k <;> rfl

theorem toDigitsCore_value :
    ∀ (fuel n : Nat) (ds : List Char), n < fuel →
      (Nat.toDigitsCore 10 fuel n ds).foldl (fun acc c => acc * 10 + (c.toNat - 48)) 0
        = ds.foldl (fun acc c => acc * 10 + (c.toNat - 48)) n := by
  intro fuel
  induction fuel with
  | zero => intro n ds h; omega
  | succ fuel ih =>
    intro n ds h
    simp only [Nat.toDigitsCore]
    by_cases h0 : n / 10 = 0
    · rw [if_pos h0]
      have hn : n < 10 := by omega
      simp only [List.foldl_cons, Nat.zero_mul, Nat.zero_add]
      rw [digitChar_toNat _ (Nat.mod_lt _ (by omega)), Nat.mod_eq_of_lt hn]
    · rw [if_neg h0, ih (n / 10) _ (by omega)]
      simp only [List.foldl_cons]
      rw [digitChar_toNat _ (Nat.mod_lt _ (by omega))]
      have : n / 10 * 10 + n % 10 = n := by omega
      rw [this]

theorem toDigitsCore_isDigit :
    ∀ (fuel n : Nat) (ds : List Char), (∀ c ∈ ds, c.isDigit = true) →
      ∀ c ∈ Nat.toDigitsCore 10 fuel n ds, c.isDigit = true := by
  intro fuel
  induction fuel with
  | zero => intro n ds h; simpa [Nat.toDigitsCore] using h
  | succ fuel ih =>
    intro n ds h
    have hd : ∀ c ∈ Nat.digitChar (n % 10) :: ds, c.isDigit = true := by
      intro c hc
      rcases List.mem_cons.1 hc with hc | hc
      · rw [hc]; exact digitChar_isDigit _ (Nat.mod_lt _ (by omega))
      · exact h c hc
    simp only [Nat.toDigitsCore]
    by_cases h0 : n / 10 = 0
    · rw [if_pos h0]; exact hd
    · rw [if_neg h0]; exact ih _ _ hd

theorem toDigitsCore_ne_nil :
    ∀ (fuel n : Nat) (ds : List Char), ds ≠ [] → Nat.toDigitsCore 10 fuel n ds ≠ [] := by
  intro fuel
  induction fuel with
  | zero => intro n ds h; simpa [Nat.toDigitsCore] using h
  | succ fuel ih =>
    intro n ds _
    simp only [Nat.toDigitsCore]
    by_cases h0 : n / 10 = 0
    · rw [if_pos h0]; exact List.cons_ne_nil _ _
    · rw [if_neg h0]; exact ih _ _ (List.cons_ne_nil _ _)

theorem toString_data (n : Nat) : (toString n).data = Nat.toDigits 10 n := rfl

theorem toDigits_value (n : Nat) : digitsValue (Nat.toDigits 10 n) = n := by
  unfold digitsValue Nat.toDigits
  rw [toDigitsCore_value (n + 1) n [] (by omega)]
  rfl

theorem toDigits_isDigit (n : Nat) : ∀ c ∈ Nat.toDigits 10 n, c.isDigit = true :=
  toDigitsCore_isDigit (n + 1) n [] (by intro c hc; cases hc)

theorem toDigits_ne_nil (n : Nat) : Nat.toDigits 10 n ≠ [] := by
  unfold Nat.toDigits
  simp only [Nat.toDigitsCore]
  by_cases h0 : n / 10 = 0
  · rw [if_pos h0]; exact List.cons_ne_nil _ _
  · rw [if_neg h0]; exact toDigitsCore_ne_nil _ _ _ (List.cons_ne_nil _ _)

theorem takeWhile_digits (ds tail : List Char) (h : ∀ c ∈ ds, c.isDigit = true) :
    (ds ++ '\r' :: tail).takeWhile Char.isDigit = ds := by
  induction ds with
  | nil =>
    have : Char.isDigit '\r' = false := by decide
    simp [List.takeWhile, this]
  | cons d ds ih =>
    have hd := h d (List.mem_cons_self d ds)
    simp only [List.cons_append, List.takeWhile, hd]
    exact congrArg (List.cons d) (ih (fun c hc => h c (List.mem_cons_of_mem d hc)))

theorem dropWhile_digits (ds tail : List Char) (h : ∀ c ∈ ds, c.isDigit = true) :
    (ds ++ '\r' :: tail).dropWhile Char.isDigit = '\r' :: tail := by
  induction ds with
  | nil =>
    have : Char.isDigit '\r' = false := by decide
    simp [List.dropWhile, this]
  | cons d ds ih =>
    have hd := h d (List.mem_cons_self d ds)
    simp only [List.cons_append, List.dropWhile, hd]
    exact ih (fun c hc => h c (List.mem_cons_of_mem d hc))

theorem readLen_encoded (marker : Char) (n : Nat) (tail : List Char) :
    readLen marker (marker :: (Nat.toDigits 10 n ++ '\r' :: '\n' :: tail)) = some (n, tail) := by
  unfold readLen
  simp only [if_true]
  rw [dropWhile_digits _ _ (toDigits_isDigit n), takeWhile_digits _ _ (toDigits_isDigit n)]
  simp only [toDigits_value]
  rw [if_pos ⟨trivial, trivial, toDigits_ne_nil n⟩]

theorem RestoreArgs_foldl_data (argv : List String) :
    ∀ acc : String,
      (argv.foldl
        (fun res it => RedisAppendContent (RedisAppendLen res it.length "$") it) acc).data
        = acc.data ++ argv.flatMap fun a =>
            '$' :: (Nat.toDigits 10 a.length ++ '\r' :: '\n' :: (a.data ++ ['\r', '\n'])) := by
  induction argv with
  | nil => intro acc; simp
  | cons a argv ih =>
    intro acc
    have hCRLF : "\r\n".data = ['\r', '\n'] := rfl
    have hdollar : "$".data = ['$'] := rfl
    simp only [List.foldl_cons, List.flatMap_cons]
    rw [ih]
    simp only [RedisAppendContent, RedisAppendLen, String.data_append, toString_data, hCRLF,
      hdollar]
    simp

theorem RestoreArgs_data (argv : List String) :
    (RestoreArgs argv).data
      = '*' :: (Nat.toDigits 10 argv.length ++ '\r' :: '\n' ::
          argv.flatMap fun a =>
            '$' :: (Nat.toDigits 10 a.length ++ '\r' :: '\n' :: (a.data ++ ['\r', '\n']))) := by
  have hCRLF : "\r\n".data = ['\r', '\n'] := rfl
  have hstar : "*".data = ['*'] := rfl
  have hempty : "".data = [] := rfl
  unfold RestoreArgs
  rw [RestoreArgs_foldl_data]
  simp only [RedisAppendLen, String.data_append, toString_data, hCRLF, hstar, hempty]
  simp

theorem readArgs_encoded (argv : List String) (tail : List Char) :
    readArgs argv.length
        ((argv.flatMap fun a =>
          '$' :: (Nat.toDigits 10 a.length ++ '\r' :: '\n' :: (a.data ++ ['\r', '\n'])))
          ++ tail)
      = some (argv, tail) := by
  induction argv with
  | nil => simp [readArgs]
  | cons a argv ih =>
    have hlen : a.data.length = a.length := rfl
    simp only [List.length_cons, List.flatMap_cons, readArgs, List.cons_append,
      List.append_assoc]
    rw [readLen_encoded]
    simp only []
    have htake : (a.data ++ ('\r' :: '\n' :: ((argv.flatMap fun a =>
          '$' :: (Nat.toDigits 10 a.length ++ '\r' :: '\n' :: (a.data ++ ['\r', '\n'])))
          ++ tail))).take a.length = a.data := List.take_left' hlen
    have hdrop : (a.data ++ ('\r' :: '\n' :: ((argv.flatMap fun a =>
          '$' :: (Nat.toDigits 10 a.length ++ '\r' :: '\n' :: (a.data ++ ['\r', '\n'])))
          ++ tail))).drop a.length
        = '\r' :: '\n' :: ((argv.flatMap fun a =>
          '$' :: (Nat.toDigits 10 a.length ++ '\r' :: '\n' :: (a.data ++ ['\r', '\n'])))
          ++ tail) := List.drop_left' hlen
    simp only [List.singleton_append, List.cons_append, List.nil_append] at htake hdrop ⊢
    rw [hdrop, htake]
    simp only []
    rw [if_pos ⟨hlen, trivial, trivial⟩, ih]

theorem decodeArgs_RestoreArgs (argv : List String) :
    decodeArgs (RestoreArgs argv) = some argv := by
  unfold decodeArgs
  rw [RestoreArgs_data, readLen_encoded]
  simp only []
  have h := readArgs_encoded argv []
  rw [List.append_nil] at h
  rw [h]

theorem join_foldl_data (l : List String) :
    ∀ acc : String,
      (l.foldl (fun r s => r ++ s) acc).data = acc.data ++ l.flatMap String.data := by
  induction l with
  | nil => intro acc; simp
  | cons a l ih =>
    intro acc
    simp only [List.foldl_cons, List.flatMap_cons]
    rw [ih, String.data_append, List.append_assoc]

/-- C13. `RestoreArgs` writes the argument list in the length-prefixed array
framing: `*<n>\r\n`, then for each argument in order `$<length>\r\n`, its
bytes and `\r\n`. The encoding is lossless: the decoder of that framing gives
back exactly the argument list, whatever bytes the arguments hold, so two
argument lists with the same record are the same list. -/
theorem RestoreArgs_lossless (argv : List String) :
    RestoreArgs argv
        = "*" ++ toString argv.length ++ "\r\n"
          ++ String.join (argv.map fun a => "$" ++ toString a.length ++ "\r\n" ++ a ++ "\r\n")
      ∧ decodeArgs (RestoreArgs argv) = some argv
      ∧ (∀ argv1 : List String, RestoreArgs argv = RestoreArgs argv1 → argv = argv1) := by
  refine ⟨?_, decodeArgs_RestoreArgs argv, ?_⟩
  · apply String.ext
    have hCRLF : "\r\n".data = ['\r', '\n'] := rfl
    have hstar : "*".data = ['*'] := rfl
    have hdollar : "$".data = ['$'] := rfl
    have hempty : "".data = [] := rfl
    rw [RestoreArgs_data]
    unfold String.join
    simp only [String.data_append, join_foldl_data, toString_data, hCRLF, hstar, hempty,
      List.flatMap_map, hdollar]
    simp
  · intro argv1 h
    have h1 := decodeArgs_RestoreArgs argv
    rw [h, decodeArgs_RestoreArgs argv1] at h1
    exact (Option.some.inj h1).symm

/-- Instance of C13: a list with an empty argument and with arguments holding
CR, LF, `$` and `*` is read back from its record as it was. -/
theorem RestoreArgs_lossless_witness :
    RestoreArgs ["set", "k\r\n$1", "", "*3"]
        = "*4\r\n$3\r\nset\r\n$5\r\nk\r\n$1\r\n$0\r\n\r\n$2\r\n*3\r\n"
      ∧ decodeArgs (RestoreArgs ["set", "k\r\n$1", "", "*3"])
        = some ["set", "k\r\n$1", "", "*3"] :=
  ⟨by decide, (RestoreArgs_lossless ["set", "k\r\n$1", "", "*3"]).2.1⟩

end Pika
